import Mathlib

/-!
Verification development for the Lucky Triple game server.  The primary
embedded source is `src/unnamed/part_000` (the playerId-keyed variant);
where the sibling `src/theluckytriple-server.js` diverges — its
gameId-keyed registry and its timeout path, whose `verifyTimeRemaining`
returns an object without the `isTimedOut` property the endpoints test
— that variant is embedded separately as the `V1` definitions.  The
JavaScript sources are embedded shallowly: pure functions become Lean
functions, the mutable `Map`s become association lists threaded through
explicit step functions, `Date.now()` becomes a `now : Nat` parameter,
and the external Solana calls become an explicit `GatewayOutcome`
parameter.
-/

namespace LuckyTriple

/-! ### Cards and the deck

Source: `createAndShuffleLuckyTripleDeck`, `RANK_ORDER`, `REWARDS`.
The source card object also carries a constant `hidden: false` field
that no game logic ever reads; it is omitted here.
-/

inductive Suit where
  | hearts
  | diamonds
  | clubs
  | spades
deriving DecidableEq, Repr

inductive Rank where
  | A
  | R2
  | R3
  | R4
  | R5
  | R6
deriving DecidableEq, Repr

structure Card where
  suit : Suit
  rank : Rank
deriving DecidableEq, Repr

instance : Inhabited Card := ⟨⟨Suit.hearts, Rank.A⟩⟩

/-- Source `RANK_ORDER`: `{'A':1,'2':2,'3':3,'4':4,'5':5,'6':6}`. -/
def RANK_ORDER : Rank → Nat
  | Rank.A => 1
  | Rank.R2 => 2
  | Rank.R3 => 3
  | Rank.R4 => 4
  | Rank.R5 => 5
  | Rank.R6 => 6

/-- The 24-card set built by the loop in `createAndShuffleLuckyTripleDeck`
(before the Fisher-Yates shuffle, which is a permutation of this list). -/
def fullDeck : List Card :=
  [Suit.hearts, Suit.diamonds, Suit.clubs, Suit.spades].flatMap fun s =>
    [Rank.A, Rank.R2, Rank.R3, Rank.R4, Rank.R5, Rank.R6].map fun r => ⟨s, r⟩

/-- Source `REWARDS` table. -/
def REWARDS : String → Nat
  | "Lucky Triple" => 15
  | "Triple" => 9
  | "Straight Flush" => 12
  | "Straight" => 6
  | "Flush" => 5
  | _ => 0

structure HandResult where
  combination : String
  reward : Nat
deriving DecidableEq, Repr

/-- Source `cards.every(card => card.suit === cards[0].suit)`. -/
def sameSuitB (cards : List Card) : Bool :=
  cards.all fun c => c.suit == cards.headI.suit

/-- Source `cards.every(card => card.rank === cards[0].rank)`. -/
def sameRankB (cards : List Card) : Bool :=
  cards.all fun c => c.rank == cards.headI.rank

/-- The comparator `(a, b) => RANK_ORDER[a.rank] - RANK_ORDER[b.rank]`
used by the `sort` call, as a relation. -/
def rankLE (a b : Card) : Prop :=
  RANK_ORDER a.rank ≤ RANK_ORDER b.rank

instance : DecidableRel rankLE := fun _ _ => Nat.decLe _ _

instance : IsTotal Card rankLE := ⟨fun _ _ => Nat.le_total _ _⟩

instance : IsTrans Card rankLE := ⟨fun _ _ _ h h' => Nat.le_trans h h'⟩

/-- Source `[...cards].sort((a, b) => RANK_ORDER[a.rank] - RANK_ORDER[b.rank])`
(JavaScript `Array.prototype.sort` is stable; insertion sort models it). -/
def sortedByRank (cards : List Card) : List Card :=
  List.insertionSort rankLE cards

/-- The rank values of the sorted hand, the only data the straight test reads. -/
def rankValues (cards : List Card) : List Nat :=
  (sortedByRank cards).map fun c => RANK_ORDER c.rank

/-- Source `sortedCards.every((card, i) => i === 0 ||
RANK_ORDER[card.rank] - RANK_ORDER[sorted[i-1].rank] === 1)`:
every adjacent gap in the sorted rank values is exactly one. -/
def consecutiveChain : List Nat → Bool
  | a :: b :: rest => (b == a + 1) && consecutiveChain (b :: rest)
  | _ => true

def isStraightB (cards : List Card) : Bool :=
  consecutiveChain (rankValues cards)

/-- Source `evaluateHandCombination`: the guarded if-chain, first match wins. -/
def evaluateHandCombination (cards : List Card) : HandResult :=
  if cards.length ≠ 3 then ⟨"None", 0⟩
  else if sameRankB cards && sameSuitB cards then
    ⟨"Lucky Triple", REWARDS "Lucky Triple"⟩
  else if sameRankB cards then
    ⟨"Triple", REWARDS "Triple"⟩
  else if isStraightB cards && sameSuitB cards then
    ⟨"Straight Flush", REWARDS "Straight Flush"⟩
  else if isStraightB cards then
    ⟨"Straight", REWARDS "Straight"⟩
  else if sameSuitB cards then
    ⟨"Flush", REWARDS "Flush"⟩
  else
    ⟨"None", REWARDS "None"⟩

example :
    evaluateHandCombination
      [⟨Suit.hearts, Rank.A⟩, ⟨Suit.hearts, Rank.R2⟩, ⟨Suit.hearts, Rank.R3⟩]
      = ⟨"Straight Flush", 12⟩ := by decide

example :
    evaluateHandCombination
      [⟨Suit.hearts, Rank.R4⟩, ⟨Suit.clubs, Rank.R4⟩, ⟨Suit.spades, Rank.R4⟩]
      = ⟨"Triple", 9⟩ := by decide

example :
    evaluateHandCombination
      [⟨Suit.hearts, Rank.R4⟩, ⟨Suit.hearts, Rank.R4⟩, ⟨Suit.hearts, Rank.R4⟩]
      = ⟨"Lucky Triple", 15⟩ := by decide

example :
    evaluateHandCombination
      [⟨Suit.hearts, Rank.A⟩, ⟨Suit.clubs, Rank.R2⟩, ⟨Suit.hearts, Rank.R3⟩]
      = ⟨"Straight", 6⟩ := by decide

example :
    evaluateHandCombination
      [⟨Suit.hearts, Rank.A⟩, ⟨Suit.hearts, Rank.R2⟩, ⟨Suit.hearts, Rank.R4⟩]
      = ⟨"Flush", 5⟩ := by decide

example :
    evaluateHandCombination
      [⟨Suit.hearts, Rank.A⟩, ⟨Suit.clubs, Rank.R2⟩, ⟨Suit.hearts, Rank.R4⟩]
      = ⟨"None", 0⟩ := by decide

/-! ### Facts about the evaluator -/

lemma all_rank_eq {cards : List Card} (hsr : sameRankB cards = true) :
    ∀ c ∈ cards, c.rank = cards.headI.rank := by
  intro c hc
  have h := List.all_eq_true.mp hsr c hc
  simpa using h

lemma all_suit_eq {cards : List Card} (hss : sameSuitB cards = true) :
    ∀ c ∈ cards, c.suit = cards.headI.suit := by
  intro c hc
  have h := List.all_eq_true.mp hss c hc
  simpa using h

/-- An all-same-rank 3-card hand is never a straight: the first adjacent gap
in the sorted rank values is `0`, not `1`. -/
lemma sameRank_isStraight_false {cards : List Card} (h3 : cards.length = 3)
    (hsr : sameRankB cards = true) : isStraightB cards = false := by
  have hperm : (sortedByRank cards).Perm cards := List.perm_insertionSort _ _
  have hlen : (sortedByRank cards).length = 3 := by
    rw [hperm.length_eq, h3]
  obtain ⟨a, b, c, habc⟩ := List.length_eq_three.mp hlen
  have ha : a.rank = cards.headI.rank :=
    all_rank_eq hsr a (hperm.subset (by simp [habc]))
  have hb : b.rank = cards.headI.rank :=
    all_rank_eq hsr b (hperm.subset (by simp [habc]))
  unfold isStraightB rankValues
  rw [habc]
  simp [consecutiveChain, ha, hb]

lemma sameSuitB_iff {l : List Card} (hne : l ≠ []) :
    sameSuitB l = true ↔ ∀ a ∈ l, ∀ b ∈ l, a.suit = b.suit := by
  constructor
  · intro h a ha b hb
    rw [all_suit_eq h a ha, all_suit_eq h b hb]
  · intro h
    apply List.all_eq_true.mpr
    intro c hc
    have : c.suit = l.headI.suit := h c hc l.headI (List.head!_mem_self hne)
    simpa using this

lemma sameRankB_iff {l : List Card} (hne : l ≠ []) :
    sameRankB l = true ↔ ∀ a ∈ l, ∀ b ∈ l, a.rank = b.rank := by
  constructor
  · intro h a ha b hb
    rw [all_rank_eq h a ha, all_rank_eq h b hb]
  · intro h
    apply List.all_eq_true.mpr
    intro c hc
    have : c.rank = l.headI.rank := h c hc l.headI (List.head!_mem_self hne)
    simpa using this

lemma sameSuitB_perm {l l' : List Card} (h : l.Perm l') :
    sameSuitB l = sameSuitB l' := by
  rcases hl : l with _ | ⟨x, xs⟩
  · have : l' = [] := by
      subst hl
      exact h.symm.eq_nil
    simp [this, hl, sameSuitB]
  · have hne : l ≠ [] := by simp [hl]
    have hne' : l' ≠ [] := by
      intro hc
      rw [hc] at h
      exact (by simp [hl] : l ≠ []) h.eq_nil
    rw [← hl]
    have hiff : sameSuitB l = true ↔ sameSuitB l' = true := by
      rw [sameSuitB_iff hne, sameSuitB_iff hne']
      constructor <;> intro H a ha b hb
      · exact H a (h.mem_iff.mpr ha) b (h.mem_iff.mpr hb)
      · exact H a (h.mem_iff.mp ha) b (h.mem_iff.mp hb)
    cases hA : sameSuitB l <;> cases hB : sameSuitB l' <;> simp_all

lemma sameRankB_perm {l l' : List Card} (h : l.Perm l') :
    sameRankB l = sameRankB l' := by
  rcases hl : l with _ | ⟨x, xs⟩
  · have : l' = [] := by
      subst hl
      exact h.symm.eq_nil
    simp [this, hl, sameRankB]
  · have hne : l ≠ [] := by simp [hl]
    have hne' : l' ≠ [] := by
      intro hc
      rw [hc] at h
      exact (by simp [hl] : l ≠ []) h.eq_nil
    rw [← hl]
    have hiff : sameRankB l = true ↔ sameRankB l' = true := by
      rw [sameRankB_iff hne, sameRankB_iff hne']
      constructor <;> intro H a ha b hb
      · exact H a (h.mem_iff.mpr ha) b (h.mem_iff.mpr hb)
      · exact H a (h.mem_iff.mp ha) b (h.mem_iff.mp hb)
    cases hA : sameRankB l <;> cases hB : sameRankB l' <;> simp_all

lemma rankValues_sorted (l : List Card) : (rankValues l).Sorted (· ≤ ·) := by
  have hs : (sortedByRank l).Sorted rankLE := List.sorted_insertionSort rankLE l
  exact List.Pairwise.map _ (fun _ _ hab => hab) hs

lemma rankValues_perm {l l' : List Card} (h : l.Perm l') :
    rankValues l = rankValues l' := by
  have hp : (sortedByRank l).Perm (sortedByRank l') :=
    ((List.perm_insertionSort rankLE l).trans h).trans
      (List.perm_insertionSort rankLE l').symm
  exact List.eq_of_perm_of_sorted (hp.map _) (rankValues_sorted l) (rankValues_sorted l')

lemma isStraightB_perm {l l' : List Card} (h : l.Perm l') :
    isStraightB l = isStraightB l' :=
  congrArg consecutiveChain (rankValues_perm h)

/-- The six rules of the evaluator as standalone, mutually exclusive
predicates (each chain condition minus every earlier chain condition),
in the source's chain order, labelled with the source's combination names. -/
def exclusiveConds (cards : List Card) : List (String × Bool) :=
  [("Lucky Triple", sameRankB cards && sameSuitB cards),
   ("Triple", sameRankB cards && !sameSuitB cards),
   ("Straight Flush", isStraightB cards && sameSuitB cards),
   ("Straight", isStraightB cards && !sameSuitB cards),
   ("Flush", sameSuitB cards && !isStraightB cards && !sameRankB cards),
   ("None", !sameSuitB cards && !sameRankB cards && !isStraightB cards)]

/-- The raw guard of each `if` in the evaluator's chain, with its label,
ignoring the chain position (`None` is the unconditional fallback). -/
def chainConds (cards : List Card) : List (String × Bool) :=
  [("Lucky Triple", sameRankB cards && sameSuitB cards),
   ("Triple", sameRankB cards),
   ("Straight Flush", isStraightB cards && sameSuitB cards),
   ("Straight", isStraightB cards),
   ("Flush", sameSuitB cards),
   ("None", true)]

/-- Claim C3: on every 3-card hand the evaluator assigns exactly one of
the six combination labels (the rules are exhaustive and mutually
exclusive), the reward table is strictly ordered
LuckyTriple(15) > StraightFlush(12) > Triple(9) > Straight(6) >
Flush(5) > None(0), and no satisfied chain condition carries a reward
larger than the assigned one (an earlier, lower-reward check never
shadows a higher-reward combination). -/
theorem claimC3 :
    (REWARDS "Lucky Triple" = 15 ∧ REWARDS "Straight Flush" = 12 ∧
     REWARDS "Triple" = 9 ∧ REWARDS "Straight" = 6 ∧
     REWARDS "Flush" = 5 ∧ REWARDS "None" = 0 ∧
     REWARDS "Lucky Triple" > REWARDS "Straight Flush" ∧
     REWARDS "Straight Flush" > REWARDS "Triple" ∧
     REWARDS "Triple" > REWARDS "Straight" ∧
     REWARDS "Straight" > REWARDS "Flush" ∧
     REWARDS "Flush" > REWARDS "None") ∧
    ∀ cards : List Card, cards.length = 3 →
      ((exclusiveConds cards).filter (fun p => p.2)).map (fun p => p.1)
          = [(evaluateHandCombination cards).combination] ∧
      (evaluateHandCombination cards).reward
          = REWARDS (evaluateHandCombination cards).combination ∧
      ∀ p ∈ chainConds cards, p.2 = true →
        REWARDS p.1 ≤ (evaluateHandCombination cards).reward := by
  refine ⟨by decide, ?_⟩
  intro cards h3
  cases hsr : sameRankB cards with
  | false =>
    cases hss : sameSuitB cards <;> cases hst : isStraightB cards <;>
      refine ⟨?_, ?_, ?_⟩ <;>
        simp [exclusiveConds, chainConds, evaluateHandCombination,
          h3, hsr, hss, hst, REWARDS]
  | true =>
    have hst := sameRank_isStraight_false h3 hsr
    cases hss : sameSuitB cards <;>
      refine ⟨?_, ?_, ?_⟩ <;>
        simp [exclusiveConds, chainConds, evaluateHandCombination,
          h3, hsr, hss, hst, REWARDS]

/-- Claim C3 witness: the theorem instantiated at the concrete straight
flush hand A hearts, 2 hearts, 3 hearts. -/
theorem claimC3_witness :
    (([(⟨Suit.hearts, Rank.A⟩ : Card), ⟨Suit.hearts, Rank.R2⟩,
        ⟨Suit.hearts, Rank.R3⟩] : List Card).length = 3) ∧
    (((exclusiveConds [⟨Suit.hearts, Rank.A⟩, ⟨Suit.hearts, Rank.R2⟩,
          ⟨Suit.hearts, Rank.R3⟩]).filter (fun p => p.2)).map (fun p => p.1)
        = [(evaluateHandCombination [⟨Suit.hearts, Rank.A⟩,
            ⟨Suit.hearts, Rank.R2⟩, ⟨Suit.hearts, Rank.R3⟩]).combination] ∧
      (evaluateHandCombination [⟨Suit.hearts, Rank.A⟩, ⟨Suit.hearts, Rank.R2⟩,
          ⟨Suit.hearts, Rank.R3⟩]).reward
        = REWARDS (evaluateHandCombination [⟨Suit.hearts, Rank.A⟩,
            ⟨Suit.hearts, Rank.R2⟩, ⟨Suit.hearts, Rank.R3⟩]).combination ∧
      ∀ p ∈ chainConds [⟨Suit.hearts, Rank.A⟩, ⟨Suit.hearts, Rank.R2⟩,
          ⟨Suit.hearts, Rank.R3⟩], p.2 = true →
        REWARDS p.1 ≤ (evaluateHandCombination [⟨Suit.hearts, Rank.A⟩,
            ⟨Suit.hearts, Rank.R2⟩, ⟨Suit.hearts, Rank.R3⟩]).reward) :=
  ⟨by decide, claimC3.2 _ (by decide)⟩

/-- Claim C4: the evaluator is invariant under reordering the hand — on
permuted card lists (in particular on every permutation of a 3-card
hand) it returns the same combination label and reward, so the result
depends only on the multiset of cards. -/
theorem claimC4 (l l' : List Card) (h : l.Perm l') :
    evaluateHandCombination l = evaluateHandCombination l' := by
  unfold evaluateHandCombination
  rw [h.length_eq, sameRankB_perm h, sameSuitB_perm h, isStraightB_perm h]

/-- Claim C4 witness: the theorem instantiated at a concrete 3-card hand
and a transposition of it. -/
theorem claimC4_witness :
    (([(⟨Suit.hearts, Rank.A⟩ : Card), ⟨Suit.clubs, Rank.R2⟩,
        ⟨Suit.hearts, Rank.R3⟩] : List Card).Perm
      [⟨Suit.hearts, Rank.R3⟩, ⟨Suit.clubs, Rank.R2⟩, ⟨Suit.hearts, Rank.A⟩]) ∧
    evaluateHandCombination
        [⟨Suit.hearts, Rank.A⟩, ⟨Suit.clubs, Rank.R2⟩, ⟨Suit.hearts, Rank.R3⟩]
      = evaluateHandCombination
        [⟨Suit.hearts, Rank.R3⟩, ⟨Suit.clubs, Rank.R2⟩, ⟨Suit.hearts, Rank.A⟩] :=
  ⟨by decide, claimC4 _ _ (by decide)⟩

/-! ### Server state

The mutable module-level `Map`s of `part_000` (`playerGameSessions`,
`completedGames`, `paidRewards`) become association lists; `Map.get`
is `List.lookup`, `Map.set` is `setKey` (replace first occurrence or
append), `Map.delete` is `deleteKey`.  Times are milliseconds; the
model assumes the clock is monotone (`now` is at least every stored
timestamp), matching `Date.now()`.
-/

def GAME_TIMEOUT_MS : Nat := 60 * 1000

def MAX_ROUNDS : Nat := 3

/-- Model of `Map.set`: replace the value of an existing key in place, else append. -/
def setKey {α : Type} (m : List (String × α)) (k : String) (v : α) :
    List (String × α) :=
  match m with
  | [] => [(k, v)]
  | (k', v') :: rest => if k' = k then (k, v) :: rest else (k', v') :: setKey rest k v

/-- Model of `Map.delete`. -/
def deleteKey {α : Type} (m : List (String × α)) (k : String) :
    List (String × α) :=
  m.filter fun p => p.1 ≠ k

lemma lookup_setKey {α : Type} (m : List (String × α)) (k : String) (v : α) :
    (setKey m k v).lookup k = some v := by
  induction m with
  | nil => simp [setKey]
  | cons p rest ih =>
    by_cases h : p.1 = k
    · simp [setKey, h]
    · have hk : (k == p.1) = false := by
        simp [beq_eq_false_iff_ne]
        exact fun hc => h hc.symm
      simp [setKey, h, List.lookup, hk, ih]

/-- One game session object (`gameState` in the source). -/
structure GameState where
  gameId : String
  playerId : String
  deck : List Card
  cards : List Card
  heldCards : List Nat
  timestamp : Nat
  lastActionTime : Nat
  currentCombination : String
  currentReward : Nat
  roundsPlayed : Nat
  maxRounds : Nat
  isEnded : Bool
  timedOut : Bool
  rewardPaid : Bool
deriving DecidableEq, Repr

/-- One `completedGames` record. -/
structure CompletedGame where
  playerId : String
  result : String
  timestamp : Nat
  processed : Bool
deriving DecidableEq, Repr

abbrev Ledger := List (String × String)

/-- The three module-level maps of the server. -/
structure ServerState where
  playerGameSessions : List (String × GameState)
  completedGames : List (String × CompletedGame)
  paidRewards : Ledger
deriving DecidableEq, Repr

/-- The `for (const [pid, state] of playerGameSessions) if (state.gameId
=== gameId)` scan used by every gameId-addressed endpoint. -/
def findByGameId (sessions : List (String × GameState)) (gameId : String) :
    Option (String × GameState) :=
  sessions.find? fun p => p.2.gameId == gameId

structure TimeCheck where
  timeRemaining : Nat
  isTimedOut : Bool
  isEnded : Bool
  serverTime : Nat
deriving DecidableEq, Repr

/-- Model of `Math.ceil(ms / 1000)`. -/
def ceilSeconds (ms : Nat) : Nat := (ms + 999) / 1000

/-- Source `verifyTimeRemaining(gameState, playerId = null)`: computes
`elapsed = now - gameState.timestamp` (the creation time, never
`lastActionTime`), and on expiry of a not-yet-ended session flips it to
ended/timed-out and records a `timeout` completed-game entry.  The JS
in-place object mutation becomes returning the updated session and
`completedGames` map.  `Math.max(0, BUDGET - elapsed)` is the truncated
Nat subtraction. -/
def verifyTimeRemaining (now : Nat) (gameState : GameState)
    (playerId : Option String) (completedGames : List (String × CompletedGame)) :
    GameState × List (String × CompletedGame) × TimeCheck :=
  let timeRemaining := GAME_TIMEOUT_MS - (now - gameState.timestamp)
  if timeRemaining = 0 ∧ gameState.isEnded = false then
    let gs := { gameState with isEnded := true, timedOut := true }
    let cg := match playerId with
      | some pid => setKey completedGames gameState.gameId ⟨pid, "timeout", now, true⟩
      | none => completedGames
    (gs, cg, ⟨0, true, true, now⟩)
  else
    (gameState, completedGames,
     ⟨ceilSeconds timeRemaining, false, gameState.isEnded, now⟩)

/-! ### The hold endpoint (`POST /lucky-triple/hold`) -/

inductive HoldResult where
  /-- HTTP 404 `Game not found`. -/
  | notFound
  /-- HTTP 400 `Cannot hold more than 2 cards`. -/
  | tooManyCards
  /-- HTTP 400 `Can only hold cards after first and second round`. -/
  | wrongRound
  /-- HTTP 200 `{success: true, heldCards}`. -/
  | success (heldCards : List Nat)
deriving DecidableEq, Repr

/-- The hold handler.  Note: it performs no timeout check at all. -/
def holdStep (now : Nat) (s : ServerState) (gameId : String)
    (cardIndexes : List Nat) : ServerState × HoldResult :=
  match findByGameId s.playerGameSessions gameId with
  | none => (s, HoldResult.notFound)
  | some (playerId, gameState) =>
    if cardIndexes.length > 2 then (s, HoldResult.tooManyCards)
    else if gameState.roundsPlayed = 0 ∨ gameState.roundsPlayed ≥ 3 then
      (s, HoldResult.wrongRound)
    else
      let gs := { gameState with heldCards := cardIndexes, lastActionTime := now }
      ({ s with playerGameSessions := setKey s.playerGameSessions playerId gs },
       HoldResult.success cardIndexes)

/-! ### The time endpoint (`GET /lucky-triple/time/:gameId`) -/

inductive TimeResult where
  | notFound
  /-- HTTP 200 `{timeRemaining: 0, isTimedOut: true, isEnded: true}`. -/
  | timedOut (serverTime : Nat)
  | ok (timeRemaining : Nat) (isEnded : Bool) (serverTime : Nat)
deriving DecidableEq, Repr

/-- The time handler.  On expiry it flips the session and records the
timeout, but removal from `playerGameSessions` is a `setTimeout` 5
seconds later, so the flipped session stays resident in the returned
state. -/
def timeStep (now : Nat) (s : ServerState) (gameId : String) :
    ServerState × TimeResult :=
  match findByGameId s.playerGameSessions gameId with
  | none => (s, TimeResult.notFound)
  | some (playerId, gameState) =>
    let timeRemaining := GAME_TIMEOUT_MS - (now - gameState.timestamp)
    if timeRemaining = 0 ∧ gameState.isEnded = false then
      let gs := { gameState with isEnded := true, timedOut := true }
      let cg := setKey s.completedGames gameState.gameId ⟨playerId, "timeout", now, true⟩
      ({ s with playerGameSessions := setKey s.playerGameSessions playerId gs,
                completedGames := cg },
       TimeResult.timedOut now)
    else
      (s, TimeResult.ok (ceilSeconds timeRemaining) gameState.isEnded now)

/-! ### The draw endpoint (`POST /lucky-triple/draw`) -/

/-- Model of `deck.pop()`: remove and return the last element.  The `undefined`
result of popping an empty array is unreachable behind the
`deck.length < 3` refill guard; the model returns the default card
there. -/
def popD (deck : List Card) : Card × List Card :=
  match deck.getLast? with
  | some c => (c, deck.dropLast)
  | none => (default, [])

/-- One iteration of the source's draw loop for a non-first round:
`newCards[i] = currentHeldCards.includes(i) ? previousCards[i] :
deck.pop()`. -/
def holdOrPop (held : List Nat) (i : Nat) (previous din : List Card) :
    Card × List Card :=
  if held.contains i then (previous.getD i default, din) else popD din

/-- The hand-building block of the draw handler: three fresh pops on
round 0, otherwise the held/pop loop unrolled over positions 0, 1, 2.
Returns the new hand and the remaining deck. -/
def buildNewCards (roundsPlayed : Nat) (held : List Nat)
    (previous deck0 : List Card) : List Card × List Card :=
  if roundsPlayed = 0 then
    let s0 := popD deck0
    let s1 := popD s0.2
    let s2 := popD s1.2
    ([s0.1, s1.1, s2.1], s2.2)
  else
    let s0 := holdOrPop held 0 previous deck0
    let s1 := holdOrPop held 1 previous s0.2
    let s2 := holdOrPop held 2 previous s1.2
    ([s0.1, s1.1, s2.1], s2.2)

/-- Source `if (gameState.deck.length < 3) gameState.deck =
createAndShuffleLuckyTripleDeck()`: the deck a draw actually draws
from. -/
def refillDeck (reshuffled deck : List Card) : List Card :=
  if deck.length < 3 then reshuffled else deck

/-- Mirror of the session update a successful draw performs (used to
state claim C10); identical to the update block of `drawStep`. -/
def drawnSession (now : Nat) (reshuffled : List Card) (gs : GameState) : GameState :=
  let deck0 := refillDeck reshuffled gs.deck
  let nd := buildNewCards gs.roundsPlayed gs.heldCards gs.cards deck0
  let h := evaluateHandCombination nd.1
  { gs with
    deck := nd.2
    cards := nd.1
    currentCombination := h.combination
    currentReward := h.reward
    roundsPlayed := gs.roundsPlayed + 1
    lastActionTime := now
    heldCards := []
    isEnded := gs.roundsPlayed + 1 ≥ gs.maxRounds }

structure DrawBody where
  cards : List Card
  combination : String
  reward : Nat
  roundsLeft : Nat
  remainingCards : Nat
  isEnded : Bool
  timeRemaining : Nat
  previouslyHeld : List Nat
  playerId : String
  rewardPaid : Bool
deriving DecidableEq, Repr

inductive DrawResult where
  /-- HTTP 404 `Game not found`. -/
  | notFound
  /-- HTTP 400 `Game has already ended`. -/
  | alreadyEnded
  /-- HTTP 400 `Game has timed out`. -/
  | timedOut (serverTime : Nat)
  /-- HTTP 400 `Maximum rounds reached for this game`. -/
  | maxRoundsReached
  /-- HTTP 200, with the drawn hand; `invokesReward` records whether the
  handler fired the asynchronous `processReward` call. -/
  | success (body : DrawBody) (invokesReward : Bool)
deriving DecidableEq, Repr

def DrawResult.succeeded : DrawResult → Bool
  | DrawResult.success _ _ => true
  | _ => false

/-- The hand carried by a successful draw response (and `[]` on the
error responses, which carry no hand). -/
def DrawResult.handOf : DrawResult → List Card
  | DrawResult.success body _ => body.cards
  | _ => []


/-- The draw handler.  `reshuffled` stands for the output of
`createAndShuffleLuckyTripleDeck()` in the `deck.length < 3` refill
branch (a permutation of `fullDeck`).  The asynchronous
`processReward` call and the delayed session deletions are outside
this synchronous step; the former is reported in `invokesReward`. -/
def drawStep (now : Nat) (reshuffled : List Card) (s : ServerState)
    (gameId : String) : ServerState × DrawResult :=
  match findByGameId s.playerGameSessions gameId with
  | none => (s, DrawResult.notFound)
  | some (playerId, gameState0) =>
    if gameState0.isEnded then (s, DrawResult.alreadyEnded)
    else
      match verifyTimeRemaining now gameState0 (some playerId) s.completedGames with
      | (gs1, cg1, timeCheck) =>
        if timeCheck.isTimedOut then
          ({ s with playerGameSessions := deleteKey s.playerGameSessions playerId,
                    completedGames := cg1 },
           DrawResult.timedOut timeCheck.serverTime)
        else if gs1.roundsPlayed ≥ gs1.maxRounds then
          let gs2 := { gs1 with isEnded := true, lastActionTime := now }
          ({ s with playerGameSessions := setKey s.playerGameSessions playerId gs2,
                    completedGames := cg1 },
           DrawResult.maxRoundsReached)
        else
          let deck0 := refillDeck reshuffled gs1.deck
          let currentHeldCards := gs1.heldCards
          let previousCards := gs1.cards
          let nd := buildNewCards gs1.roundsPlayed currentHeldCards previousCards deck0
          let newCards := nd.1
          let deck2 := nd.2
          let handResult := evaluateHandCombination newCards
          let rounds1 := gs1.roundsPlayed + 1
          let ended := rounds1 ≥ gs1.maxRounds
          let gs2 := { gs1 with
            deck := deck2
            cards := newCards
            currentCombination := handResult.combination
            currentReward := handResult.reward
            roundsPlayed := rounds1
            lastActionTime := now
            heldCards := []
            isEnded := ended }
          let cgInv : List (String × CompletedGame) × Bool :=
            if ended then
              if handResult.reward > 0 then
                (setKey cg1 gs2.gameId ⟨playerId, "win", now, false⟩, true)
              else
                (setKey cg1 gs2.gameId ⟨playerId, "loss", now, false⟩, false)
            else (cg1, false)
          let remainingTime :=
            if gs2.isEnded then 0
            else (verifyTimeRemaining now gs2 (some playerId) cgInv.1).2.2.timeRemaining
          ({ s with playerGameSessions := setKey s.playerGameSessions playerId gs2,
                    completedGames := cgInv.1 },
           DrawResult.success
             ⟨newCards, handResult.combination, handResult.reward,
              gs2.maxRounds - rounds1, deck2.length, gs2.isEnded, remainingTime,
              currentHeldCards, playerId, gs2.rewardPaid⟩
             cgInv.2)

/-! ### The check endpoint (`POST /lucky-triple/check`) -/

structure CheckBody where
  gameId : String
  playerId : String
  combination : String
  reward : Nat
  isWin : Bool
  rewardPaid : Bool
deriving DecidableEq, Repr

inductive CheckResult where
  /-- HTTP 404 `Game not found`. -/
  | notFound
  /-- HTTP 400 `Game has timed out`. -/
  | timedOut (serverTime : Nat)
  /-- HTTP 200, final result; `invokesReward` records whether the handler
  fired the asynchronous `processReward` call. -/
  | success (body : CheckBody) (invokesReward : Bool)
deriving DecidableEq, Repr

/-- The check handler.  It never tests `isEnded`: past the time check it
unconditionally marks the session ended, writes (or overwrites) the
`completedGames` record keyed by gameId, and on `currentReward > 0`
fires `processReward`. -/
def checkStep (now : Nat) (s : ServerState) (gameId : String) :
    ServerState × CheckResult :=
  match findByGameId s.playerGameSessions gameId with
  | none => (s, CheckResult.notFound)
  | some (playerId, gameState0) =>
    match verifyTimeRemaining now gameState0 (some playerId) s.completedGames with
    | (gs1, cg1, timeCheck) =>
      if timeCheck.isTimedOut then
        ({ s with playerGameSessions := deleteKey s.playerGameSessions playerId,
                  completedGames := cg1 },
         CheckResult.timedOut timeCheck.serverTime)
      else
        let gs2 := { gs1 with isEnded := true, lastActionTime := now }
        let cg2 := setKey cg1 gs2.gameId
          ⟨playerId, if gs2.currentReward > 0 then "win" else "loss", now, false⟩
        ({ s with playerGameSessions := setKey s.playerGameSessions playerId gs2,
                  completedGames := cg2 },
         CheckResult.success
           ⟨gs2.gameId, playerId, gs2.currentCombination, gs2.currentReward,
            decide (gs2.currentReward > 0), gs2.rewardPaid⟩
           (decide (gs2.currentReward > 0)))

/-! ### The status endpoint (`GET /lucky-triple/status/:gameId`) -/

structure StatusBody where
  gameId : String
  playerId : String
  isEnded : Bool
  timedOut : Bool
  timeRemaining : Nat
  roundsLeft : Nat
  currentCombination : String
  currentReward : Nat
  rewardPaid : Bool
deriving DecidableEq, Repr

inductive StatusResult where
  /-- HTTP 404 `Game not found`. -/
  | notFound
  /-- HTTP 400 `{error: 'Game has timed out', timeRemaining: 0, isTimedOut:
  true, isEnded: true}` — an error response, not a success snapshot.
  (The sibling variant `theluckytriple-server.js` has a 404
  `Game has timed out` branch here instead, but there it is unreachable:
  see `verifyTimeRemainingV1`.) -/
  | timedOutError (serverTime : Nat)
  /-- HTTP 200 snapshot. -/
  | success (body : StatusBody)
deriving DecidableEq, Repr

/-- The status handler. -/
def statusStep (now : Nat) (s : ServerState) (gameId : String) :
    ServerState × StatusResult :=
  match findByGameId s.playerGameSessions gameId with
  | none => (s, StatusResult.notFound)
  | some (playerId, gameState0) =>
    match verifyTimeRemaining now gameState0 (some playerId) s.completedGames with
    | (gs1, cg1, timeCheck) =>
      if timeCheck.isTimedOut then
        ({ s with playerGameSessions := deleteKey s.playerGameSessions playerId,
                  completedGames := cg1 },
         StatusResult.timedOutError timeCheck.serverTime)
      else
        (s, StatusResult.success
          ⟨gs1.gameId, playerId, gs1.isEnded || timeCheck.isEnded,
           gs1.timedOut || timeCheck.isTimedOut, timeCheck.timeRemaining,
           gs1.maxRounds - gs1.roundsPlayed, gs1.currentCombination,
           gs1.currentReward, gs1.rewardPaid⟩)

/-! ### The sibling variant `theluckytriple-server.js`

This variant keys `luckyTripleGames` by gameId, its sessions carry no
`lastActionTime`, and its `verifyTimeRemaining(gameState)` returns
`handleTimedOutGame(gameState)` on expiry — an object that carries
`timedOut: true` but **no `isTimedOut` property**.  Every endpoint
guards its timed-out rejection with `timeCheck.isTimedOut`, which reads
`undefined` (falsy) on that object, so those rejection branches are
unreachable in this variant.  The missing property is modelled as an
`Option Bool` (`none` = property absent) read through JavaScript
truthiness.
-/

/-- JavaScript truthiness of reading a possibly-absent boolean
property: `undefined` is falsy. -/
def jsTruthy (x : Option Bool) : Bool :=
  x.getD false

/-- The value `verifyTimeRemaining` returns in
`theluckytriple-server.js`: only the two properties its callers read.
On the expiry branch the returned object (from `handleTimedOutGame`)
has no `isTimedOut` property at all (`none`). -/
structure TimeCheckV1 where
  timeRemaining : Nat
  isTimedOut : Option Bool
deriving DecidableEq, Repr

/-- One session object of `theluckytriple-server.js` (same fields as
`part_000` minus `lastActionTime`, which this variant does not keep). -/
structure GameStateV1 where
  gameId : String
  playerId : String
  deck : List Card
  cards : List Card
  heldCards : List Nat
  timestamp : Nat
  currentCombination : String
  currentReward : Nat
  roundsPlayed : Nat
  maxRounds : Nat
  isEnded : Bool
  timedOut : Bool
  rewardPaid : Bool
deriving DecidableEq, Repr

/-- The module-level maps of `theluckytriple-server.js`:
`luckyTripleGames` is keyed by gameId there. -/
structure ServerStateV1 where
  luckyTripleGames : List (String × GameStateV1)
  completedGames : List (String × CompletedGame)
  paidRewards : Ledger
deriving DecidableEq, Repr

/-- Source `handleTimedOutGame(gameState)`: flips the session to
ended/timed-out in place, records the `timeout` completed-game entry
when `gameState.playerId` is truthy, and returns the timeout object —
which carries `timeRemaining: 0` and `timedOut: true` but no
`isTimedOut` property (`none` here). -/
def handleTimedOutGame (now : Nat) (gameState : GameStateV1)
    (completedGames : List (String × CompletedGame)) :
    GameStateV1 × List (String × CompletedGame) × TimeCheckV1 :=
  let gs := { gameState with isEnded := true, timedOut := true }
  let cg :=
    if gameState.playerId ≠ "" then
      setKey completedGames gameState.gameId
        ⟨gameState.playerId, "timeout", now, true⟩
    else completedGames
  (gs, cg, ⟨0, none⟩)

/-- Source `verifyTimeRemaining(gameState)` of
`theluckytriple-server.js`: on expiry of a not-yet-ended session it
returns `handleTimedOutGame(gameState)`; otherwise
`{timeRemaining, isTimedOut: false}`. -/
def verifyTimeRemainingV1 (now : Nat) (gameState : GameStateV1)
    (completedGames : List (String × CompletedGame)) :
    GameStateV1 × List (String × CompletedGame) × TimeCheckV1 :=
  let timeRemaining := GAME_TIMEOUT_MS - (now - gameState.timestamp)
  if timeRemaining = 0 ∧ gameState.isEnded = false then
    handleTimedOutGame now gameState completedGames
  else
    (gameState, completedGames, ⟨ceilSeconds timeRemaining, some false⟩)

/-- The hold handler of `theluckytriple-server.js`: like `part_000`'s,
it performs no timeout check (and this variant does not even track
`lastActionTime`). -/
def holdStepV1 (s : ServerStateV1) (gameId : String) (cardIndexes : List Nat) :
    ServerStateV1 × HoldResult :=
  match s.luckyTripleGames.lookup gameId with
  | none => (s, HoldResult.notFound)
  | some gameState =>
    if cardIndexes.length > 2 then (s, HoldResult.tooManyCards)
    else if gameState.roundsPlayed = 0 ∨ gameState.roundsPlayed ≥ 3 then
      (s, HoldResult.wrongRound)
    else
      let gs := { gameState with heldCards := cardIndexes }
      ({ s with luckyTripleGames := setKey s.luckyTripleGames gameId gs },
       HoldResult.success cardIndexes)

/-- The draw handler of `theluckytriple-server.js`.  The
`timeCheck.isTimedOut` guard reads an absent property on expiry, so the
timed-out rejection is unreachable: after `verifyTimeRemaining` has
flipped the session in place, the handler deals a new hand anyway. -/
def drawStepV1 (now : Nat) (reshuffled : List Card) (s : ServerStateV1)
    (gameId : String) : ServerStateV1 × DrawResult :=
  match s.luckyTripleGames.lookup gameId with
  | none => (s, DrawResult.notFound)
  | some gameState0 =>
    if gameState0.isEnded then (s, DrawResult.alreadyEnded)
    else
      match verifyTimeRemainingV1 now gameState0 s.completedGames with
      | (gs1, cg1, timeCheck) =>
        if jsTruthy timeCheck.isTimedOut then
          -- unreachable: see `verifyV1_isTimedOut_false`
          ({ s with luckyTripleGames := deleteKey s.luckyTripleGames gameId,
                    completedGames := cg1 },
           DrawResult.timedOut now)
        else if gs1.roundsPlayed ≥ gs1.maxRounds then
          let gsMax := { gs1 with isEnded := true }
          ({ s with luckyTripleGames := setKey s.luckyTripleGames gameId gsMax,
                    completedGames := cg1 },
           DrawResult.maxRoundsReached)
        else
          let deck0 := refillDeck reshuffled gs1.deck
          let nd := buildNewCards gs1.roundsPlayed gs1.heldCards gs1.cards deck0
          let handResult := evaluateHandCombination nd.1
          let rounds1 := gs1.roundsPlayed + 1
          let ended := rounds1 ≥ gs1.maxRounds
          let gs2 := { gs1 with
            deck := nd.2
            cards := nd.1
            currentCombination := handResult.combination
            currentReward := handResult.reward
            roundsPlayed := rounds1
            heldCards := []
            isEnded := gs1.isEnded || decide ended }
          let cgInv : List (String × CompletedGame) × Bool :=
            if ended then
              if handResult.reward > 0 ∧ gs1.playerId ≠ "" then
                (setKey cg1 gameId ⟨gs1.playerId, "win", now, false⟩, true)
              else if gs1.playerId ≠ "" then
                (setKey cg1 gameId ⟨gs1.playerId, "loss", now, false⟩, false)
              else (cg1, false)
            else (cg1, false)
          let remainingTime :=
            if gs2.isEnded then 0
            else (verifyTimeRemainingV1 now gs2 cgInv.1).2.2.timeRemaining
          ({ s with luckyTripleGames := setKey s.luckyTripleGames gameId gs2,
                    completedGames := cgInv.1 },
           DrawResult.success
             ⟨nd.1, handResult.combination, handResult.reward,
              gs2.maxRounds - rounds1, nd.2.length, gs2.isEnded, remainingTime,
              gs1.heldCards, gs1.playerId, gs2.rewardPaid⟩
             cgInv.2)

/-- The check handler of `theluckytriple-server.js`.  Its timed-out
rejection is likewise unreachable: an expired session is flipped by the
verify call and then unconditionally ended as a win/loss from the stale
`currentReward`, firing `processReward` on a "win". -/
def checkStepV1 (now : Nat) (s : ServerStateV1) (gameId : String) :
    ServerStateV1 × CheckResult :=
  match s.luckyTripleGames.lookup gameId with
  | none => (s, CheckResult.notFound)
  | some gameState0 =>
    match verifyTimeRemainingV1 now gameState0 s.completedGames with
    | (gs1, cg1, timeCheck) =>
      if jsTruthy timeCheck.isTimedOut then
        -- unreachable: see `verifyV1_isTimedOut_false`
        ({ s with luckyTripleGames := deleteKey s.luckyTripleGames gameId,
                  completedGames := cg1 },
         CheckResult.timedOut now)
      else
        let gs2 := { gs1 with isEnded := true }
        let cg2 :=
          if gs2.playerId ≠ "" then
            setKey cg1 gameId
              ⟨gs2.playerId, if gs2.currentReward > 0 then "win" else "loss",
               now, false⟩
          else cg1
        ({ s with luckyTripleGames := setKey s.luckyTripleGames gameId gs2,
                  completedGames := cg2 },
         CheckResult.success
           ⟨gs2.gameId, gs2.playerId, gs2.currentCombination, gs2.currentReward,
            decide (gs2.currentReward > 0), gs2.rewardPaid⟩
           (decide (gs2.currentReward > 0)))

/-- The status handler of `theluckytriple-server.js`.  Its 404
`Game has timed out` branch is unreachable; on an expired session the
verify call flips the session in place and the handler answers the
normal HTTP 200 snapshot built from the flipped session — with the
stale `currentReward`, not 0.  (The deletion of ended sessions is a
`setTimeout`, so the session stays resident in the returned state.) -/
def statusStepV1 (now : Nat) (s : ServerStateV1) (gameId : String) :
    ServerStateV1 × StatusResult :=
  match s.luckyTripleGames.lookup gameId with
  | none => (s, StatusResult.notFound)
  | some gameState0 =>
    match verifyTimeRemainingV1 now gameState0 s.completedGames with
    | (gs1, cg1, timeCheck) =>
      if jsTruthy timeCheck.isTimedOut then
        -- unreachable: see `verifyV1_isTimedOut_false`
        ({ s with luckyTripleGames := deleteKey s.luckyTripleGames gameId,
                  completedGames := cg1 },
         StatusResult.timedOutError now)
      else
        ({ s with luckyTripleGames := setKey s.luckyTripleGames gameId gs1,
                  completedGames := cg1 },
         StatusResult.success
           ⟨gs1.gameId, gs1.playerId, gs1.isEnded, gs1.timedOut,
            timeCheck.timeRemaining, gs1.maxRounds - gs1.roundsPlayed,
            gs1.currentCombination, gs1.currentReward, gs1.rewardPaid⟩)

/-! ### The reward pipeline (`sendCardsReward`, `processReward`)

The body of `sendCardsReward` after the `paidRewards` bookkeeping is a
sequence of external Solana calls; they are summarised by a
`GatewayOutcome` parameter.  `addressValid` stands for whether
`new PublicKey(receiverAddress)` succeeds (that validation happens
before the ledger is consulted and throws without touching it).
-/

inductive GatewayOutcome where
  /-- The transaction was submitted and the call chain succeeded. -/
  | success
  /-- An external call threw before `sendRawTransaction`, so nothing
  reached the gateway (e.g. the receiver has no token account). -/
  | failBeforeSubmit
  /-- Outcome where `sendRawTransaction` reached the gateway but the call threw. -/
  | failAfterSubmit
deriving DecidableEq, Repr

structure SendOutcome where
  ledger : Ledger
  /-- whether a payout submission reached the gateway. -/
  submitted : Bool
  /-- whether the function threw. -/
  threw : Bool
  /-- ghost observation: the ledger contents at the moment the
  submission was issued, if one was. -/
  ledgerAtSubmit : Option Ledger
deriving DecidableEq, Repr

/-- Source `sendCardsReward(receiverAddress, gameId, rewardAmount)`.
The `transactionKey` is `receiverAddress-gameId`; an existing entry of
any status short-circuits to `return null`; otherwise the key is set to
`pending` before any external call, then to `completed` or `failed`. -/
def sendCardsReward (addressValid : Bool) (outcome : GatewayOutcome)
    (receiverAddress gameId : String) (ledger : Ledger) : SendOutcome :=
  if addressValid = false then ⟨ledger, false, true, none⟩
  else
    let transactionKey := receiverAddress ++ "-" ++ gameId
    if (ledger.lookup transactionKey).isSome then ⟨ledger, false, false, none⟩
    else
      let pendingLedger := setKey ledger transactionKey "pending"
      match outcome with
      | GatewayOutcome.success =>
        ⟨setKey pendingLedger transactionKey "completed", true, false,
         some pendingLedger⟩
      | GatewayOutcome.failBeforeSubmit =>
        ⟨setKey pendingLedger transactionKey "failed", false, true, none⟩
      | GatewayOutcome.failAfterSubmit =>
        ⟨setKey pendingLedger transactionKey "failed", true, true,
         some pendingLedger⟩

/-- Source `processReward(gameState)`: skips if `rewardPaid` or no win;
otherwise awaits `sendCardsReward` and sets `rewardPaid := true` when it
did not throw (the `catch` branch leaves `rewardPaid` unchanged). -/
def processReward (addressValid : Bool) (outcome : GatewayOutcome)
    (gameState : GameState) (ledger : Ledger) : GameState × Ledger :=
  if gameState.rewardPaid then (gameState, ledger)
  else if gameState.currentReward = 0 then (gameState, ledger)
  else
    let r := sendCardsReward addressValid outcome gameState.playerId
      gameState.gameId ledger
    if r.threw then (gameState, r.ledger)
    else ({ gameState with rewardPaid := true }, r.ledger)

/-- Repeated invocations of `sendCardsReward` for one `(player, game)`
pair, threading the ledger; returns the final ledger and how many
submissions reached the gateway. -/
def runDispatches (receiverAddress gameId : String)
    (calls : List (Bool × GatewayOutcome)) (ledger : Ledger) : Ledger × Nat :=
  match calls with
  | [] => (ledger, 0)
  | (v, o) :: rest =>
    let r := sendCardsReward v o receiverAddress gameId ledger
    let t := runDispatches receiverAddress gameId rest r.ledger
    (t.1, (if r.submitted then 1 else 0) + t.2)

/-! ### Claims C1 and C2: the payout idempotency ledger -/

lemma sendCardsReward_existing (v : Bool) (o : GatewayOutcome)
    (receiverAddress gameId : String) (ledger : Ledger)
    (h : (ledger.lookup (receiverAddress ++ "-" ++ gameId)).isSome) :
    (sendCardsReward v o receiverAddress gameId ledger).submitted = false ∧
    (sendCardsReward v o receiverAddress gameId ledger).ledger = ledger := by
  cases v <;> simp [sendCardsReward, h]

lemma sendCardsReward_writes (v : Bool) (o : GatewayOutcome)
    (receiverAddress gameId : String) (ledger : Ledger)
    (hv : v = true)
    (h : (ledger.lookup (receiverAddress ++ "-" ++ gameId)).isSome = false) :
    ((sendCardsReward v o receiverAddress gameId ledger).ledger.lookup
      (receiverAddress ++ "-" ++ gameId)).isSome = true := by
  subst hv
  cases o <;> simp [sendCardsReward, h, lookup_setKey]

lemma runDispatches_existing (receiverAddress gameId : String)
    (calls : List (Bool × GatewayOutcome)) (ledger : Ledger)
    (h : (ledger.lookup (receiverAddress ++ "-" ++ gameId)).isSome) :
    (runDispatches receiverAddress gameId calls ledger).2 = 0 := by
  induction calls generalizing ledger with
  | nil => simp [runDispatches]
  | cons c rest ih =>
    obtain ⟨v, o⟩ := c
    obtain ⟨hsub, hled⟩ := sendCardsReward_existing v o receiverAddress gameId ledger h
    simp only [runDispatches, hsub, hled]
    simp [ih ledger h]

/-- Claim C1: for a fixed `(playerId, gameId)` pair, (1) any number of
`sendCardsReward` invocations produce at most one submission that
reaches the gateway, (2) whenever an invocation submits, the ledger it
presents to the gateway already holds the key at `pending`, and (3) an
invocation that finds an existing entry (of any status) submits nothing
and leaves the ledger untouched. -/
theorem claimC1 (receiverAddress gameId : String) :
    (∀ (calls : List (Bool × GatewayOutcome)) (ledger : Ledger),
      ledger.lookup (receiverAddress ++ "-" ++ gameId) = none →
      (runDispatches receiverAddress gameId calls ledger).2 ≤ 1) ∧
    (∀ (v : Bool) (o : GatewayOutcome) (l : Ledger),
      (sendCardsReward v o receiverAddress gameId l).submitted = true →
      ∃ lp, (sendCardsReward v o receiverAddress gameId l).ledgerAtSubmit = some lp ∧
        lp.lookup (receiverAddress ++ "-" ++ gameId) = some "pending") ∧
    (∀ (v : Bool) (o : GatewayOutcome) (l : Ledger),
      (l.lookup (receiverAddress ++ "-" ++ gameId)).isSome →
      (sendCardsReward v o receiverAddress gameId l).submitted = false ∧
      (sendCardsReward v o receiverAddress gameId l).ledger = l) := by
  refine ⟨?_, ?_, ?_⟩
  · intro calls ledger h
    induction calls generalizing ledger with
    | nil => simp [runDispatches]
    | cons c rest ih =>
      obtain ⟨v, o⟩ := c
      cases v with
      | false =>
        simp only [runDispatches]
        have hled : (sendCardsReward false o receiverAddress gameId ledger).ledger
            = ledger := by
          simp [sendCardsReward]
        have hsub : (sendCardsReward false o receiverAddress gameId ledger).submitted
            = false := by
          simp [sendCardsReward]
        rw [hled, hsub]
        simpa using ih ledger h
      | true =>
        simp only [runDispatches]
        have hnone : (ledger.lookup (receiverAddress ++ "-" ++ gameId)).isSome
            = false := by
          simp [h]
        have hafter := sendCardsReward_writes true o receiverAddress gameId ledger
          rfl hnone
        have hrest := runDispatches_existing receiverAddress gameId rest
          (sendCardsReward true o receiverAddress gameId ledger).ledger
          (by simp [hafter])
        rw [hrest]
        cases hsub : (sendCardsReward true o receiverAddress gameId ledger).submitted <;>
          simp
  · intro v o l hsub
    cases v with
    | false => simp [sendCardsReward] at hsub
    | true =>
      by_cases hl : (l.lookup (receiverAddress ++ "-" ++ gameId)).isSome
      · simp [sendCardsReward, hl] at hsub
      · cases o <;>
          simp_all [sendCardsReward, lookup_setKey]
  · intro v o l hl
    exact sendCardsReward_existing v o receiverAddress gameId l hl

/-- Claim C1 witness: three invocations for the same pair, the first
failing before submission, the next two with a willing gateway, still
submit at most once. -/
theorem claimC1_witness :
    (([] : Ledger).lookup ("p1" ++ "-" ++ "g1") = none) ∧
    (runDispatches "p1" "g1"
      [(true, GatewayOutcome.failBeforeSubmit), (true, GatewayOutcome.success),
       (true, GatewayOutcome.success)] []).2 ≤ 1 :=
  ⟨by decide, (claimC1 "p1" "g1").1 _ _ (by decide)⟩

/-- A won, ended session whose reward dispatch has not yet succeeded. -/
def wonGame : GameState where
  gameId := "g1"
  playerId := "p1"
  deck := []
  cards := [⟨Suit.hearts, Rank.R4⟩, ⟨Suit.hearts, Rank.R4⟩, ⟨Suit.hearts, Rank.R4⟩]
  heldCards := []
  timestamp := 0
  lastActionTime := 0
  currentCombination := "Lucky Triple"
  currentReward := 15
  roundsPlayed := 3
  maxRounds := 3
  isEnded := true
  timedOut := false
  rewardPaid := false

/-- Claim C2 counterexample: the first dispatch attempt fails, leaving
the ledger entry `failed` and `rewardPaid = false`; a second invocation
of `processReward` finds the existing entry, `sendCardsReward` returns
`null` without throwing, and `processReward` sets `rewardPaid := true`
even though the entry is still `failed` — contradicting the claim that
`rewardPaid` becomes true only with a `completed` entry. -/
theorem claimC2_counterexample :
    ((processReward true GatewayOutcome.failBeforeSubmit wonGame []).1.rewardPaid
        = false) ∧
    ((processReward true GatewayOutcome.failBeforeSubmit wonGame []).2.lookup "p1-g1"
        = some "failed") ∧
    ((processReward true GatewayOutcome.failBeforeSubmit
        (processReward true GatewayOutcome.failBeforeSubmit wonGame []).1
        (processReward true GatewayOutcome.failBeforeSubmit wonGame []).2).1.rewardPaid
        = true) ∧
    ((processReward true GatewayOutcome.failBeforeSubmit
        (processReward true GatewayOutcome.failBeforeSubmit wonGame []).1
        (processReward true GatewayOutcome.failBeforeSubmit wonGame []).2).2.lookup
        "p1-g1" = some "failed") := by
  decide

/-- Claim C2 as amended: `processReward` sets `rewardPaid := true`
exactly when its dispatch call does not throw — either the entry was
just transitioned to `completed`, or an entry already existed in *any*
status (`pending`, `completed` or `failed`) and the dispatch was a
no-op that left the entry unchanged.  In particular a later invocation
after a failed attempt does set `rewardPaid := true` while the entry
remains `failed`. -/
theorem claimC2_amended (v : Bool) (o : GatewayOutcome) (gs : GameState)
    (ledger : Ledger) :
    ((processReward v o gs ledger).1.rewardPaid = true ↔
      (gs.rewardPaid = true ∨
        (gs.currentReward ≠ 0 ∧ v = true ∧
          ((ledger.lookup (gs.playerId ++ "-" ++ gs.gameId)).isSome = true ∨
            o = GatewayOutcome.success)))) ∧
    ((ledger.lookup (gs.playerId ++ "-" ++ gs.gameId)).isSome = true →
      (processReward v o gs ledger).2 = ledger) := by
  by_cases hp : gs.rewardPaid
  · constructor
    · simp [processReward, hp]
    · intro h
      simp [processReward, hp]
  · by_cases hr : gs.currentReward = 0
    · constructor
      · simp [processReward, hp, hr]
      · intro h
        simp [processReward, hp, hr]
    · cases v with
      | false =>
        constructor
        · simp [processReward, sendCardsReward, hp, hr]
        · intro h
          simp [processReward, sendCardsReward, hp, hr]
      | true =>
        by_cases hl : (ledger.lookup (gs.playerId ++ "-" ++ gs.gameId)).isSome
        · constructor
          · simp [processReward, sendCardsReward, hp, hr, hl]
          · intro h
            simp [processReward, sendCardsReward, hp, hr, hl]
        · constructor
          · cases o <;> simp [processReward, sendCardsReward, hp, hr, hl]
          · intro h
            simp_all
  -- end claimC2_amended

/-- Claim C2 amended witness: instantiated at the concrete state where a
prior attempt already recorded `failed`. -/
theorem claimC2_amended_witness :
    ((([("p1-g1", "failed")] : Ledger).lookup
        ("p1" ++ "-" ++ "g1")).isSome = true) ∧
    ((processReward true GatewayOutcome.failBeforeSubmit wonGame
        [("p1-g1", "failed")]).1.rewardPaid = true ↔
      (wonGame.rewardPaid = true ∨
        (wonGame.currentReward ≠ 0 ∧ true = true ∧
          ((([("p1-g1", "failed")] : Ledger).lookup
              (wonGame.playerId ++ "-" ++ wonGame.gameId)).isSome = true ∨
            GatewayOutcome.failBeforeSubmit = GatewayOutcome.success)))) ∧
    (processReward true GatewayOutcome.failBeforeSubmit wonGame
        [("p1-g1", "failed")]).2 = [("p1-g1", "failed")] :=
  ⟨by decide,
   (claimC2_amended true GatewayOutcome.failBeforeSubmit wonGame
     [("p1-g1", "failed")]).1,
   (claimC2_amended true GatewayOutcome.failBeforeSubmit wonGame
     [("p1-g1", "failed")]).2 (by decide)⟩

/-! ### Timeout behaviour of the endpoints (claims C5–C9) -/

lemma verify_timeout (now : Nat) (gs : GameState) (pid : String)
    (cg : List (String × CompletedGame))
    (hne : gs.isEnded = false) (ht : GAME_TIMEOUT_MS ≤ now - gs.timestamp) :
    verifyTimeRemaining now gs (some pid) cg =
      ({ gs with isEnded := true, timedOut := true },
       setKey cg gs.gameId ⟨pid, "timeout", now, true⟩,
       ⟨0, true, true, now⟩) := by
  have h0 : GAME_TIMEOUT_MS - (now - gs.timestamp) = 0 := Nat.sub_eq_zero_of_le ht
  simp [verifyTimeRemaining, h0, hne]

lemma verify_alive (now : Nat) (gs : GameState) (pid : Option String)
    (cg : List (String × CompletedGame))
    (ht : now - gs.timestamp < GAME_TIMEOUT_MS) :
    verifyTimeRemaining now gs pid cg =
      (gs, cg,
       ⟨ceilSeconds (GAME_TIMEOUT_MS - (now - gs.timestamp)), false,
        gs.isEnded, now⟩) := by
  have h0 : GAME_TIMEOUT_MS - (now - gs.timestamp) ≠ 0 := Nat.sub_ne_zero_of_lt ht
  simp [verifyTimeRemaining, h0]

lemma verify_ended (now : Nat) (gs : GameState) (pid : Option String)
    (cg : List (String × CompletedGame)) (he : gs.isEnded = true) :
    verifyTimeRemaining now gs pid cg =
      (gs, cg,
       ⟨ceilSeconds (GAME_TIMEOUT_MS - (now - gs.timestamp)), false, true, now⟩) := by
  simp [verifyTimeRemaining, he]

/-- A mid-game session: round 1 of 3 played, a straight-flush hand on
the table, created at time 0. -/
def runningGame : GameState where
  gameId := "g1"
  playerId := "p1"
  deck := [⟨Suit.clubs, Rank.R4⟩, ⟨Suit.spades, Rank.R5⟩, ⟨Suit.diamonds, Rank.R6⟩,
           ⟨Suit.clubs, Rank.A⟩]
  cards := [⟨Suit.hearts, Rank.A⟩, ⟨Suit.hearts, Rank.R2⟩, ⟨Suit.hearts, Rank.R3⟩]
  heldCards := []
  timestamp := 0
  lastActionTime := 0
  currentCombination := "Straight Flush"
  currentReward := 12
  roundsPlayed := 1
  maxRounds := 3
  isEnded := false
  timedOut := false
  rewardPaid := false

def runningServer : ServerState where
  playerGameSessions := [("p1", runningGame)]
  completedGames := []
  paidRewards := []

/-- Claim C5 counterexample: at `now = 61000` the session created at
time 0 is 61 s old, past the 60 s budget, yet the hold endpoint — which
performs no timeout check at all — proceeds: it succeeds and stores the
held positions, and the session is neither flipped to ended/timed-out
nor rejected. -/
theorem claimC5_counterexample :
    (holdStep 61000 runningServer "g1" [0]).2 = HoldResult.success [0] ∧
    (holdStep 61000 runningServer "g1" [0]).1.playerGameSessions.lookup "p1"
      = some { runningGame with heldCards := [0], lastActionTime := 61000 } := by
  decide

/-- Claim C5 as amended: draw, check and status (but not hold) each
first compute `elapsed = now - createdAt` (never `lastActionAt`); when
`elapsed ≥ budget` on a not-yet-ended session they flip it to
ended/timed-out, record the `timeout` completed-game entry, and reject
the in-flight action; hold performs no timeout check and proceeds. -/
theorem claimC5_amended (now : Nat) (reshuffled : List Card) (s : ServerState)
    (gid pid : String) (gs : GameState)
    (hfind : findByGameId s.playerGameSessions gid = some (pid, gs))
    (hne : gs.isEnded = false)
    (ht : GAME_TIMEOUT_MS ≤ now - gs.timestamp) :
    (drawStep now reshuffled s gid).2 = DrawResult.timedOut now ∧
    (drawStep now reshuffled s gid).1.completedGames.lookup gs.gameId
      = some ⟨pid, "timeout", now, true⟩ ∧
    (checkStep now s gid).2 = CheckResult.timedOut now ∧
    (checkStep now s gid).1.completedGames.lookup gs.gameId
      = some ⟨pid, "timeout", now, true⟩ ∧
    (statusStep now s gid).2 = StatusResult.timedOutError now ∧
    (statusStep now s gid).1.completedGames.lookup gs.gameId
      = some ⟨pid, "timeout", now, true⟩ := by
  have hv := verify_timeout now gs pid s.completedGames hne ht
  refine ⟨?_, ?_, ?_, ?_, ?_, ?_⟩ <;>
    simp [drawStep, checkStep, statusStep, hfind, hne, hv, lookup_setKey]

/-- Claim C5 amended witness: instantiated on the concrete 61-second-old
running session. -/
theorem claimC5_amended_witness :
    (findByGameId runningServer.playerGameSessions "g1" = some ("p1", runningGame) ∧
     runningGame.isEnded = false ∧
     GAME_TIMEOUT_MS ≤ 61000 - runningGame.timestamp) ∧
    ((drawStep 61000 [] runningServer "g1").2 = DrawResult.timedOut 61000 ∧
     (drawStep 61000 [] runningServer "g1").1.completedGames.lookup
        runningGame.gameId = some ⟨"p1", "timeout", 61000, true⟩ ∧
     (checkStep 61000 runningServer "g1").2 = CheckResult.timedOut 61000 ∧
     (checkStep 61000 runningServer "g1").1.completedGames.lookup
        runningGame.gameId = some ⟨"p1", "timeout", 61000, true⟩ ∧
     (statusStep 61000 runningServer "g1").2 = StatusResult.timedOutError 61000 ∧
     (statusStep 61000 runningServer "g1").1.completedGames.lookup
        runningGame.gameId = some ⟨"p1", "timeout", 61000, true⟩) :=
  ⟨⟨by decide, by decide, by decide⟩,
   claimC5_amended 61000 [] runningServer "g1" "p1" runningGame
     (by decide) (by decide) (by decide)⟩

/-- In `theluckytriple-server.js` the `timeCheck.isTimedOut` guard is
never true: the alive branch sets the property to `false` and the
timeout branch returns an object without the property (falsy
`undefined`), so every timed-out rejection of that variant is dead
code. -/
lemma verifyV1_isTimedOut_false (now : Nat) (gameState : GameStateV1)
    (cg : List (String × CompletedGame)) :
    jsTruthy (verifyTimeRemainingV1 now gameState cg).2.2.isTimedOut = false := by
  unfold verifyTimeRemainingV1 handleTimedOutGame
  by_cases h : GAME_TIMEOUT_MS - (now - gameState.timestamp) = 0 ∧
      gameState.isEnded = false
  · simp [h, jsTruthy]
  · simp [h, jsTruthy]

lemma verifyV1_timeout (now : Nat) (gsv : GameStateV1)
    (cg : List (String × CompletedGame))
    (hne : gsv.isEnded = false) (ht : GAME_TIMEOUT_MS ≤ now - gsv.timestamp) :
    verifyTimeRemainingV1 now gsv cg =
      ({ gsv with isEnded := true, timedOut := true },
       (if gsv.playerId ≠ "" then
          setKey cg gsv.gameId ⟨gsv.playerId, "timeout", now, true⟩
        else cg),
       ⟨0, none⟩) := by
  have h0 : GAME_TIMEOUT_MS - (now - gsv.timestamp) = 0 := Nat.sub_eq_zero_of_le ht
  simp [verifyTimeRemainingV1, handleTimedOutGame, h0, hne]

/-- The same mid-game session as `runningGame`, in the gameId-keyed,
`lastActionTime`-free shape of `theluckytriple-server.js`. -/
def runningGameV1 : GameStateV1 where
  gameId := "g1"
  playerId := "p1"
  deck := [⟨Suit.clubs, Rank.R4⟩, ⟨Suit.spades, Rank.R5⟩, ⟨Suit.diamonds, Rank.R6⟩,
           ⟨Suit.clubs, Rank.A⟩]
  cards := [⟨Suit.hearts, Rank.A⟩, ⟨Suit.hearts, Rank.R2⟩, ⟨Suit.hearts, Rank.R3⟩]
  heldCards := []
  timestamp := 0
  currentCombination := "Straight Flush"
  currentReward := 12
  roundsPlayed := 1
  maxRounds := 3
  isEnded := false
  timedOut := false
  rewardPaid := false

def runningServerV1 : ServerStateV1 where
  luckyTripleGames := [("g1", runningGameV1)]
  completedGames := []
  paidRewards := []

/-- Claim C6 counterexample, at the same expired instant in both cited
variants.  In `part_000` the status call answers the `Game has timed
out` HTTP 400 *error*, not a success snapshot.  In
`theluckytriple-server.js` no timed-out rejection is reachable: status
answers an HTTP 200 snapshot carrying the stale reward 12 — not the
claimed 0 — and check, draw and hold all proceed (check even ends the
expired game as a win from the stale reward and fires dispatch). -/
theorem claimC6_counterexample :
    (statusStep 61000 runningServer "g1").2 = StatusResult.timedOutError 61000 ∧
    (statusStepV1 61000 runningServerV1 "g1").2
      = StatusResult.success
          ⟨"g1", "p1", true, true, 0, 2, "Straight Flush", 12, false⟩ ∧
    (checkStepV1 61000 runningServerV1 "g1").2
      = CheckResult.success ⟨"g1", "p1", "Straight Flush", 12, true, false⟩ true ∧
    (drawStepV1 61000 [] runningServerV1 "g1").2.succeeded = true ∧
    (holdStepV1 runningServerV1 "g1" [0]).2 = HoldResult.success [0] := by
  decide

/-- Claim C6 as amended: the claimed behaviour holds in neither cited
variant.  In `part_000` (playerId-keyed), status on an elapsed session
flips it, records the timeout and responds with the `Game has timed
out` HTTP 400 error rather than a success snapshot, draw and check are
rejected with the timed-out error, and hold performs no timeout check.
In `theluckytriple-server.js`, the rejection branches test
`timeCheck.isTimedOut`, a property the timeout return value of its
`verifyTimeRemaining` does not carry, so they are unreachable: status
answers the HTTP 200 snapshot with `isEnded = true` and
`timedOut = true` but the stale `currentReward` rather than 0, draw
deals a new hand, check ends the expired game from the stale reward
(firing dispatch on a win), and hold succeeds whenever its own guards
pass. -/
theorem claimC6_amended (now : Nat) (reshuffled : List Card) (s : ServerState)
    (sv : ServerStateV1) (gid pid : String) (gs : GameState)
    (gsv : GameStateV1) (idxs : List Nat)
    (hfind : findByGameId s.playerGameSessions gid = some (pid, gs))
    (hne : gs.isEnded = false)
    (ht : GAME_TIMEOUT_MS ≤ now - gs.timestamp)
    (hlen : idxs.length ≤ 2)
    (hr0 : 0 < gs.roundsPlayed) (hr3 : gs.roundsPlayed < 3)
    (hfindv : sv.luckyTripleGames.lookup gid = some gsv)
    (hnev : gsv.isEnded = false)
    (htv : GAME_TIMEOUT_MS ≤ now - gsv.timestamp)
    (hrv : gsv.roundsPlayed < gsv.maxRounds) :
    (statusStep now s gid).2 = StatusResult.timedOutError now ∧
    (drawStep now reshuffled s gid).2 = DrawResult.timedOut now ∧
    (checkStep now s gid).2 = CheckResult.timedOut now ∧
    (holdStep now s gid idxs).2 = HoldResult.success idxs ∧
    (statusStepV1 now sv gid).2 = StatusResult.success
        ⟨gsv.gameId, gsv.playerId, true, true, 0,
         gsv.maxRounds - gsv.roundsPlayed, gsv.currentCombination,
         gsv.currentReward, gsv.rewardPaid⟩ ∧
    (drawStepV1 now reshuffled sv gid).2.succeeded = true ∧
    (checkStepV1 now sv gid).2 = CheckResult.success
        ⟨gsv.gameId, gsv.playerId, gsv.currentCombination, gsv.currentReward,
         decide (gsv.currentReward > 0), gsv.rewardPaid⟩
        (decide (gsv.currentReward > 0)) := by
  have hv := verify_timeout now gs pid s.completedGames hne ht
  have hvv := verifyV1_timeout now gsv sv.completedGames hnev htv
  have hrv' : ¬ (gsv.roundsPlayed ≥ gsv.maxRounds) := Nat.not_le.mpr hrv
  refine ⟨?_, ?_, ?_, ?_, ?_, ?_, ?_⟩
  · simp [statusStep, hfind, hv]
  · simp [drawStep, hfind, hne, hv]
  · simp [checkStep, hfind, hv]
  · have h2 : ¬ idxs.length > 2 := Nat.not_lt.mpr hlen
    have hw : ¬ (gs.roundsPlayed = 0 ∨ gs.roundsPlayed ≥ 3) := by omega
    simp [holdStep, hfind, h2, hw]
  · simp [statusStepV1, hfindv, hvv, jsTruthy]
  · simp [drawStepV1, hfindv, hnev, hvv, jsTruthy, hrv', DrawResult.succeeded]
  · simp [checkStepV1, hfindv, hvv, jsTruthy]

/-- Claim C6 amended witness: both concrete servers at the same expired
instant, with a one-position hold on the `part_000` side. -/
theorem claimC6_amended_witness :
    (findByGameId runningServer.playerGameSessions "g1" = some ("p1", runningGame) ∧
     runningGame.isEnded = false ∧
     GAME_TIMEOUT_MS ≤ 61000 - runningGame.timestamp ∧
     ([1] : List Nat).length ≤ 2 ∧
     0 < runningGame.roundsPlayed ∧ runningGame.roundsPlayed < 3 ∧
     runningServerV1.luckyTripleGames.lookup "g1" = some runningGameV1 ∧
     runningGameV1.isEnded = false ∧
     GAME_TIMEOUT_MS ≤ 61000 - runningGameV1.timestamp ∧
     runningGameV1.roundsPlayed < runningGameV1.maxRounds) ∧
    ((statusStep 61000 runningServer "g1").2 = StatusResult.timedOutError 61000 ∧
     (drawStep 61000 [] runningServer "g1").2 = DrawResult.timedOut 61000 ∧
     (checkStep 61000 runningServer "g1").2 = CheckResult.timedOut 61000 ∧
     (holdStep 61000 runningServer "g1" [1]).2 = HoldResult.success [1] ∧
     (statusStepV1 61000 runningServerV1 "g1").2 = StatusResult.success
        ⟨runningGameV1.gameId, runningGameV1.playerId, true, true, 0,
         runningGameV1.maxRounds - runningGameV1.roundsPlayed,
         runningGameV1.currentCombination, runningGameV1.currentReward,
         runningGameV1.rewardPaid⟩ ∧
     (drawStepV1 61000 [] runningServerV1 "g1").2.succeeded = true ∧
     (checkStepV1 61000 runningServerV1 "g1").2 = CheckResult.success
        ⟨runningGameV1.gameId, runningGameV1.playerId,
         runningGameV1.currentCombination, runningGameV1.currentReward,
         decide (runningGameV1.currentReward > 0), runningGameV1.rewardPaid⟩
        (decide (runningGameV1.currentReward > 0))) :=
  ⟨⟨by decide, by decide, by decide, by decide, by decide, by decide, by decide,
    by decide, by decide, by decide⟩,
   claimC6_amended 61000 [] runningServer runningServerV1 "g1" "p1" runningGame
     runningGameV1 [1] (by decide) (by decide) (by decide) (by decide)
     (by decide) (by decide) (by decide) (by decide) (by decide) (by decide)⟩

/-- A finished session, still resident: all three rounds played,
`isEnded = true`. -/
def endedGame : GameState :=
  { runningGame with roundsPlayed := 3, isEnded := true }

def endedServer : ServerState where
  playerGameSessions := [("p1", endedGame)]
  completedGames := [("g1", ⟨"p1", "win", 5000, false⟩)]
  paidRewards := []

/-- Claim C7 counterexample: a draw on a session with
`roundsPlayed = maxRounds` and `isEnded = true` is rejected with the
`Game has already ended` error — not the `Maximum rounds reached for
this game` error the claim names (that branch is only reachable when
`isEnded` is still false) — and the state is unmutated. -/
theorem claimC7_counterexample :
    drawStep 6000 [] endedServer "g1" = (endedServer, DrawResult.alreadyEnded) := by
  decide

/-- Claim C7 as amended: a draw on a session that has completed its
rounds (`roundsPlayed = maxRounds`, hence `isEnded = true`) is rejected
with the `Game has already ended` error and mutates nothing: the whole
server state — hand, deck, reward, round counter and held set included
— is returned unchanged. -/
theorem claimC7_amended (now : Nat) (reshuffled : List Card) (s : ServerState)
    (gid pid : String) (gs : GameState)
    (hfind : findByGameId s.playerGameSessions gid = some (pid, gs))
    (hr : gs.roundsPlayed = gs.maxRounds)
    (he : gs.isEnded = true) :
    drawStep now reshuffled s gid = (s, DrawResult.alreadyEnded) := by
  simp [drawStep, hfind, he]

/-- Claim C7 amended witness: instantiated on the concrete ended
session. -/
theorem claimC7_amended_witness :
    (findByGameId endedServer.playerGameSessions "g1" = some ("p1", endedGame) ∧
     endedGame.roundsPlayed = endedGame.maxRounds ∧
     endedGame.isEnded = true) ∧
    drawStep 6000 [⟨Suit.clubs, Rank.R2⟩] endedServer "g1"
      = (endedServer, DrawResult.alreadyEnded) :=
  ⟨⟨by decide, by decide, by decide⟩,
   claimC7_amended 6000 [⟨Suit.clubs, Rank.R2⟩] endedServer "g1" "p1" endedGame
     (by decide) (by decide) (by decide)⟩

/-- Claim C8 counterexample: the first terminal transition is a timeout
(via the time endpoint, which flips the session but leaves it resident
for 5 s), recording `timeout`.  A check on the still-resident session
then *overwrites* the record with `win` (derived from the stale
`currentReward = 12`) and re-invokes reward dispatch — the
write-once/no-re-dispatch claim fails. -/
theorem claimC8_counterexample :
    ((timeStep 61000 runningServer "g1").1.completedGames.lookup "g1"
        = some ⟨"p1", "timeout", 61000, true⟩) ∧
    ((checkStep 61500 (timeStep 61000 runningServer "g1").1 "g1").1.completedGames.lookup
        "g1" = some ⟨"p1", "win", 61500, false⟩) ∧
    ((checkStep 61500 (timeStep 61000 runningServer "g1").1 "g1").2
        = CheckResult.success ⟨"g1", "p1", "Straight Flush", 12, true, false⟩ true) := by
  decide

/-- Claim C8 as amended: completed-game records are not write-once.
`check` never tests `isEnded`: on any still-resident, already-ended
session it re-ends it, overwrites the gameId's record with a `win`/
`loss` outcome recomputed from `currentReward` and a fresh timestamp,
and re-invokes reward dispatch whenever `currentReward > 0` (an actual
duplicate payment is prevented only by `rewardPaid` and the ledger). -/
theorem claimC8_amended (now : Nat) (s : ServerState) (gid pid : String)
    (gs : GameState)
    (hfind : findByGameId s.playerGameSessions gid = some (pid, gs))
    (he : gs.isEnded = true) :
    ((checkStep now s gid).1.completedGames.lookup gs.gameId
        = some ⟨pid, if gs.currentReward > 0 then "win" else "loss", now, false⟩) ∧
    (checkStep now s gid).2 = CheckResult.success
        ⟨gs.gameId, pid, gs.currentCombination, gs.currentReward,
         decide (gs.currentReward > 0), gs.rewardPaid⟩
        (decide (gs.currentReward > 0)) := by
  have hv := verify_ended now gs (some pid) s.completedGames he
  constructor <;> simp [checkStep, hfind, hv, lookup_setKey]

/-- Claim C8 amended witness: a second check on the already-checked
resident session rewrites its record with a fresh timestamp and fires
dispatch again. -/
theorem claimC8_amended_witness :
    (findByGameId endedServer.playerGameSessions "g1" = some ("p1", endedGame) ∧
     endedGame.isEnded = true) ∧
    (((checkStep 7000 endedServer "g1").1.completedGames.lookup endedGame.gameId
        = some ⟨"p1", if endedGame.currentReward > 0 then "win" else "loss",
                7000, false⟩) ∧
     (checkStep 7000 endedServer "g1").2 = CheckResult.success
        ⟨endedGame.gameId, "p1", endedGame.currentCombination,
         endedGame.currentReward, decide (endedGame.currentReward > 0),
         endedGame.rewardPaid⟩
        (decide (endedGame.currentReward > 0))) :=
  ⟨⟨by decide, by decide⟩,
   claimC8_amended 7000 endedServer "g1" "p1" endedGame (by decide) (by decide)⟩

/-- Claim C9 counterexample: a hold with positions `[5, 5]` — a
duplicated index far outside `{0,1,2}` — is accepted and stored
verbatim, not rejected with any invalid-argument error. -/
theorem claimC9_counterexample :
    (holdStep 1000 runningServer "g1" [5, 5]).2 = HoldResult.success [5, 5] ∧
    (holdStep 1000 runningServer "g1" [5, 5]).1.playerGameSessions.lookup "p1"
      = some { runningGame with heldCards := [5, 5], lastActionTime := 1000 } := by
  decide

/-- Claim C9 as amended: a hold on a resident session succeeds exactly
when at most two positions are supplied and `0 < roundsPlayed < 3`;
more than two positions give the hold-count error, an out-of-window
round gives the illegal-state error, and the supplied positions are
stored verbatim — duplicates and indices outside `{0,1,2}` are not
validated. -/
theorem claimC9_amended (now : Nat) (s : ServerState) (gid pid : String)
    (gs : GameState) (idxs : List Nat)
    (hfind : findByGameId s.playerGameSessions gid = some (pid, gs)) :
    ((holdStep now s gid idxs).2 = HoldResult.success idxs ↔
      (idxs.length ≤ 2 ∧ 0 < gs.roundsPlayed ∧ gs.roundsPlayed < 3)) ∧
    (idxs.length > 2 → (holdStep now s gid idxs).2 = HoldResult.tooManyCards) ∧
    (idxs.length ≤ 2 → (gs.roundsPlayed = 0 ∨ gs.roundsPlayed ≥ 3) →
      (holdStep now s gid idxs).2 = HoldResult.wrongRound) ∧
    ((holdStep now s gid idxs).2 = HoldResult.success idxs →
      (holdStep now s gid idxs).1.playerGameSessions.lookup pid
        = some { gs with heldCards := idxs, lastActionTime := now }) := by
  by_cases h2 : idxs.length > 2
  · have h2' : ¬ idxs.length ≤ 2 := Nat.not_le.mpr h2
    refine ⟨?_, ?_, ?_, ?_⟩ <;> simp [holdStep, hfind, h2, h2']
  · by_cases hw : gs.roundsPlayed = 0 ∨ gs.roundsPlayed ≥ 3
    · have hw' : ¬ (0 < gs.roundsPlayed ∧ gs.roundsPlayed < 3) := by omega
      refine ⟨?_, ?_, ?_, ?_⟩ <;>
        simp [holdStep, hfind, h2, hw]
      · omega
    · have hw' : 0 < gs.roundsPlayed ∧ gs.roundsPlayed < 3 := by omega
      refine ⟨?_, ?_, ?_, ?_⟩ <;>
        simp [holdStep, hfind, h2, hw, lookup_setKey]
      · omega

/-- Claim C9 amended witness: instantiated on the concrete running
session with the malformed positions `[5, 5]`. -/
theorem claimC9_amended_witness :
    (findByGameId runningServer.playerGameSessions "g1"
        = some ("p1", runningGame)) ∧
    (((holdStep 1000 runningServer "g1" [5, 5]).2 = HoldResult.success [5, 5] ↔
        (([5, 5] : List Nat).length ≤ 2 ∧ 0 < runningGame.roundsPlayed ∧
         runningGame.roundsPlayed < 3)) ∧
     (([5, 5] : List Nat).length > 2 →
        (holdStep 1000 runningServer "g1" [5, 5]).2 = HoldResult.tooManyCards) ∧
     (([5, 5] : List Nat).length ≤ 2 →
        (runningGame.roundsPlayed = 0 ∨ runningGame.roundsPlayed ≥ 3) →
        (holdStep 1000 runningServer "g1" [5, 5]).2 = HoldResult.wrongRound) ∧
     ((holdStep 1000 runningServer "g1" [5, 5]).2 = HoldResult.success [5, 5] →
        (holdStep 1000 runningServer "g1" [5, 5]).1.playerGameSessions.lookup "p1"
          = some { runningGame with heldCards := [5, 5], lastActionTime := 1000 })) :=
  ⟨by decide,
   claimC9_amended 1000 runningServer "g1" "p1" runningGame [5, 5] (by decide)⟩

/-! ### Claim C10: the card mechanics of a successful draw -/

lemma popD_eq {d : List Card} (h : d ≠ []) :
    popD d = (d.getLast h, d.dropLast) := by
  simp [popD, List.getLast?_eq_getLast_of_ne_nil h]

lemma popD_fst_mem {d : List Card} (h : d ≠ []) : (popD d).1 ∈ d := by
  rw [popD_eq h]
  exact List.getLast_mem h

lemma popD_snd {d : List Card} (h : d ≠ []) : (popD d).2 = d.dropLast := by
  rw [popD_eq h]

lemma popD_snd_subset (d : List Card) : (popD d).2 ⊆ d := by
  by_cases h : d = []
  · subst h
    simp [popD]
  · rw [popD_snd h]
    intro x hx
    rw [← List.dropLast_append_getLast h]
    exact List.mem_append_left _ hx

lemma popD_snd_nodup {d : List Card} (hn : d.Nodup) : (popD d).2.Nodup := by
  by_cases h : d = []
  · subst h
    simp [popD]
  · rw [popD_snd h]
    have heq := List.dropLast_append_getLast h
    rw [← heq] at hn
    exact (List.nodup_append.mp hn).1

lemma popD_fst_not_mem {d : List Card} (hn : d.Nodup) (h : d ≠ []) :
    (popD d).1 ∉ (popD d).2 := by
  rw [popD_eq h]
  have heq := List.dropLast_append_getLast h
  rw [← heq] at hn
  rcases List.nodup_append.mp hn with ⟨-, -, hdisj⟩
  intro hmem
  exact hdisj hmem (by simp)

lemma popD_snd_length {d : List Card} (h : d ≠ []) :
    (popD d).2.length + 1 = d.length := by
  rw [popD_snd h, List.length_dropLast]
  have : 0 < d.length := List.length_pos.mpr h
  omega

lemma holdOrPop_held {held : List Nat} {i : Nat} {previous din : List Card}
    (h : held.contains i = true) :
    holdOrPop held i previous din = (previous.getD i default, din) := by
  simp only [holdOrPop, h, if_true]

lemma holdOrPop_fresh {held : List Nat} {i : Nat} {previous din : List Card}
    (h : held.contains i = false) :
    holdOrPop held i previous din = popD din := by
  simp only [holdOrPop, h, Bool.false_eq_true, if_false]

lemma holdOrPop_snd_subset (held : List Nat) (i : Nat) (previous din : List Card) :
    (holdOrPop held i previous din).2 ⊆ din := by
  by_cases h : held.contains i
  · simp [holdOrPop_held h]
  · rw [holdOrPop_fresh (Bool.of_not_eq_true h)]
    exact popD_snd_subset din

lemma holdOrPop_snd_nodup {held : List Nat} {i : Nat} {previous din : List Card}
    (hn : din.Nodup) : (holdOrPop held i previous din).2.Nodup := by
  by_cases h : held.contains i
  · simpa [holdOrPop_held h] using hn
  · rw [holdOrPop_fresh (Bool.of_not_eq_true h)]
    exact popD_snd_nodup hn

lemma holdOrPop_snd_length (held : List Nat) (i : Nat) (previous din : List Card) :
    din.length ≤ (holdOrPop held i previous din).2.length + 1 := by
  by_cases h : held.contains i
  · simp [holdOrPop_held h]
  · rw [holdOrPop_fresh (Bool.of_not_eq_true h)]
    by_cases hne : din = []
    · subst hne
      simp [popD]
    · rw [popD_snd_length hne]

lemma ne_nil_of_le_length {d : List Card} {n : Nat} (h : n + 1 ≤ d.length) :
    d ≠ [] :=
  List.length_pos.mp (by omega)

/-- A round-0 draw takes three pops: the hand is three distinct cards of
the deck, all removed from it. -/
lemma buildNewCards_zero (held : List Nat) (previous deck0 : List Card)
    (h3 : 3 ≤ deck0.length) (hnd : deck0.Nodup) :
    (buildNewCards 0 held previous deck0).1.length = 3 ∧
    (buildNewCards 0 held previous deck0).1.Nodup ∧
    (∀ c ∈ (buildNewCards 0 held previous deck0).1, c ∈ deck0) ∧
    (buildNewCards 0 held previous deck0).2.length + 3 = deck0.length ∧
    (∀ c ∈ (buildNewCards 0 held previous deck0).1,
       c ∉ (buildNewCards 0 held previous deck0).2) := by
  have hne0 : deck0 ≠ [] := ne_nil_of_le_length (n := 2) (by omega)
  have h0m := popD_fst_mem hne0
  have h0n : (popD deck0).2.Nodup := popD_snd_nodup hnd
  have h0nm := popD_fst_not_mem hnd hne0
  have h0s := popD_snd_subset deck0
  have h0l := popD_snd_length hne0
  have hne1 : (popD deck0).2 ≠ [] := ne_nil_of_le_length (n := 1) (by omega)
  have h1m := popD_fst_mem hne1
  have h1n : (popD (popD deck0).2).2.Nodup := popD_snd_nodup h0n
  have h1nm := popD_fst_not_mem h0n hne1
  have h1s := popD_snd_subset (popD deck0).2
  have h1l := popD_snd_length hne1
  have hne2 : (popD (popD deck0).2).2 ≠ [] := ne_nil_of_le_length (n := 0) (by omega)
  have h2m := popD_fst_mem hne2
  have h2nm := popD_fst_not_mem h1n hne2
  have h2s := popD_snd_subset (popD (popD deck0).2).2
  have h2l := popD_snd_length hne2
  have hb : buildNewCards 0 held previous deck0 =
      ([(popD deck0).1, (popD (popD deck0).2).1, (popD (popD (popD deck0).2).2).1],
       (popD (popD (popD deck0).2).2).2) := by
    simp [buildNewCards]
  rw [hb]
  have hne01 : (popD deck0).1 ≠ (popD (popD deck0).2).1 :=
    fun h => h0nm (h ▸ h1m)
  have hne02 : (popD deck0).1 ≠ (popD (popD (popD deck0).2).2).1 :=
    fun h => h0nm (h ▸ h1s h2m)
  have hne12 : (popD (popD deck0).2).1 ≠ (popD (popD (popD deck0).2).2).1 :=
    fun h => h1nm (h ▸ h2m)
  refine ⟨by simp, ?_, ?_, ?_, ?_⟩
  · -- the three popped cards are pairwise distinct
    simp [List.nodup_cons, hne01, hne02, hne12]
  · intro c hc
    simp only [List.mem_cons, List.mem_singleton, List.not_mem_nil, or_false] at hc
    rcases hc with h | h | h
    · exact h ▸ h0m
    · exact h ▸ h0s h1m
    · exact h ▸ h0s (h1s h2m)
  · show (popD (popD (popD deck0).2).2).2.length + 3 = deck0.length
    omega
  · intro c hc
    simp only [List.mem_cons, List.mem_singleton, List.not_mem_nil, or_false] at hc
    rcases hc with h | h | h
    · subst h
      intro hmem
      exact h0nm (h1s (h2s hmem))
    · subst h
      intro hmem
      exact h1nm (h2s hmem)
    · subst h
      exact h2nm

/-- A draw on a later round keeps every held position's previous card at
its index and fills every other position with a fresh, pairwise
distinct card taken from the deck. -/
lemma buildNewCards_pos (r : Nat) (hr : r ≠ 0) (held : List Nat)
    (previous deck0 : List Card) (h3 : 3 ≤ deck0.length) (hnd : deck0.Nodup) :
    (buildNewCards r held previous deck0).1.length = 3 ∧
    (∀ i, i < 3 → held.contains i = true →
       (buildNewCards r held previous deck0).1.getD i default
         = previous.getD i default) ∧
    (∀ i, i < 3 → held.contains i = false →
       (buildNewCards r held previous deck0).1.getD i default ∈ deck0 ∧
       (buildNewCards r held previous deck0).1.getD i default
         ∉ (buildNewCards r held previous deck0).2) ∧
    (∀ i j, i < 3 → j < 3 → i ≠ j → held.contains i = false →
       held.contains j = false →
       (buildNewCards r held previous deck0).1.getD i default
         ≠ (buildNewCards r held previous deck0).1.getD j default) := by
  have hb : buildNewCards r held previous deck0 =
      ([(holdOrPop held 0 previous deck0).1,
        (holdOrPop held 1 previous (holdOrPop held 0 previous deck0).2).1,
        (holdOrPop held 2 previous
          (holdOrPop held 1 previous (holdOrPop held 0 previous deck0).2).2).1],
       (holdOrPop held 2 previous
         (holdOrPop held 1 previous (holdOrPop held 0 previous deck0).2).2).2) := by
    simp only [buildNewCards, if_neg hr]
  set d0 := (holdOrPop held 0 previous deck0).2 with hd0
  set d1 := (holdOrPop held 1 previous d0).2 with hd1
  set d2 := (holdOrPop held 2 previous d1).2 with hd2
  have hsub0 : d0 ⊆ deck0 := holdOrPop_snd_subset held 0 previous deck0
  have hsub1 : d1 ⊆ d0 := holdOrPop_snd_subset held 1 previous d0
  have hsub2 : d2 ⊆ d1 := holdOrPop_snd_subset held 2 previous d1
  have hn0 : d0.Nodup := holdOrPop_snd_nodup hnd
  have hn1 : d1.Nodup := holdOrPop_snd_nodup hn0
  have hl0 : deck0.length ≤ d0.length + 1 := holdOrPop_snd_length held 0 previous deck0
  have hl1 : d0.length ≤ d1.length + 1 := holdOrPop_snd_length held 1 previous d0
  have hne0 : deck0 ≠ [] := ne_nil_of_le_length (n := 2) (by omega)
  have hne1 : d0 ≠ [] := ne_nil_of_le_length (n := 1) (by omega)
  have hne2 : d1 ≠ [] := ne_nil_of_le_length (n := 0) (by omega)
  -- conditional facts about each position
  have hf0 : held.contains 0 = false →
      (holdOrPop held 0 previous deck0).1 ∈ deck0 ∧
      (holdOrPop held 0 previous deck0).1 ∉ d0 := by
    intro h
    rw [hd0, holdOrPop_fresh h]
    exact ⟨popD_fst_mem hne0, popD_fst_not_mem hnd hne0⟩
  have hf1 : held.contains 1 = false →
      (holdOrPop held 1 previous d0).1 ∈ d0 ∧
      (holdOrPop held 1 previous d0).1 ∉ d1 := by
    intro h
    rw [hd1, holdOrPop_fresh h]
    exact ⟨popD_fst_mem hne1, popD_fst_not_mem hn0 hne1⟩
  have hf2 : held.contains 2 = false →
      (holdOrPop held 2 previous d1).1 ∈ d1 ∧
      (holdOrPop held 2 previous d1).1 ∉ d2 := by
    intro h
    rw [hd2, holdOrPop_fresh h]
    exact ⟨popD_fst_mem hne2, popD_fst_not_mem hn1 hne2⟩
  rw [hb]
  refine ⟨by simp, ?_, ?_, ?_⟩
  · -- held positions keep the previous card
    intro i hi hc
    have h012 : i = 0 ∨ i = 1 ∨ i = 2 := by omega
    rcases h012 with h | h | h <;> subst h <;>
      simp [List.getD_cons_zero, List.getD_cons_succ, holdOrPop_held hc]
  · -- non-held positions draw fresh cards from the deck, removed from it
    intro i hi hc
    have h012 : i = 0 ∨ i = 1 ∨ i = 2 := by omega
    rcases h012 with h | h | h <;> subst h <;>
      simp only [List.getD_cons_zero, List.getD_cons_succ]
    · exact ⟨(hf0 hc).1, fun hm => (hf0 hc).2 (hsub1 (hsub2 hm))⟩
    · exact ⟨hsub0 (hf1 hc).1, fun hm => (hf1 hc).2 (hsub2 hm)⟩
    · exact ⟨hsub0 (hsub1 (hf2 hc).1), (hf2 hc).2⟩
  · -- distinct fresh positions receive distinct cards
    intro i j hi hj hij hci hcj
    have hij01 : (i = 0 ∧ j = 1) ∨ (i = 0 ∧ j = 2) ∨ (i = 1 ∧ j = 0) ∨
        (i = 1 ∧ j = 2) ∨ (i = 2 ∧ j = 0) ∨ (i = 2 ∧ j = 1) := by omega
    have key01 : held.contains 0 = false → held.contains 1 = false →
        (holdOrPop held 0 previous deck0).1 ≠ (holdOrPop held 1 previous d0).1 := by
      intro h0 h1 heq
      exact (hf0 h0).2 (heq ▸ (hf1 h1).1)
    have key02 : held.contains 0 = false → held.contains 2 = false →
        (holdOrPop held 0 previous deck0).1 ≠ (holdOrPop held 2 previous d1).1 := by
      intro h0 h2 heq
      exact (hf0 h0).2 (heq ▸ hsub1 (hf2 h2).1)
    have key12 : held.contains 1 = false → held.contains 2 = false →
        (holdOrPop held 1 previous d0).1 ≠ (holdOrPop held 2 previous d1).1 := by
      intro h1 h2 heq
      exact (hf1 h1).2 (heq ▸ (hf2 h2).1)
    rcases hij01 with ⟨h, h'⟩ | ⟨h, h'⟩ | ⟨h, h'⟩ | ⟨h, h'⟩ | ⟨h, h'⟩ | ⟨h, h'⟩ <;>
      subst h <;> subst h' <;>
        simp only [List.getD_cons_zero, List.getD_cons_succ]
    · exact key01 hci hcj
    · exact key02 hci hcj
    · exact (key01 hcj hci).symm
    · exact key12 hci hcj
    · exact (key02 hcj hci).symm
    · exact (key12 hcj hci).symm

lemma fullDeck_nodup : fullDeck.Nodup := by decide

lemma fullDeck_length : fullDeck.length = 24 := by decide

/-- Past all four guards, a draw stores exactly `drawnSession` for the
player and answers a success response carrying that session's hand. -/
lemma drawStep_success (now : Nat) (reshuffled : List Card) (s : ServerState)
    (gid pid : String) (gs : GameState)
    (hfind : findByGameId s.playerGameSessions gid = some (pid, gs))
    (hne : gs.isEnded = false)
    (ht : now - gs.timestamp < GAME_TIMEOUT_MS)
    (hr : gs.roundsPlayed < gs.maxRounds) :
    (drawStep now reshuffled s gid).1.playerGameSessions.lookup pid
        = some (drawnSession now reshuffled gs) ∧
    (drawStep now reshuffled s gid).2.succeeded = true ∧
    (drawStep now reshuffled s gid).2.handOf = (drawnSession now reshuffled gs).cards := by
  have hv := verify_alive now gs (some pid) s.completedGames ht
  have hts : ¬ (gs.roundsPlayed ≥ gs.maxRounds) := Nat.not_le.mpr hr
  refine ⟨?_, ?_, ?_⟩ <;>
    simp [drawStep, hfind, hne, hv, hts, drawnSession, lookup_setKey,
      DrawResult.succeeded, DrawResult.handOf]

/-- Claim C10: a successful draw stores the `drawnSession` update and
answers success; the stored session has its held set cleared and the
round counter advanced; the new hand has 3 cards; on round 0 all three
are fresh, pairwise distinct cards taken out of the deck (the session
deck, or the reshuffled replacement when fewer than 3 cards remained);
on rounds ≥ 1 every held position keeps the previous hand's card at
that exact index while every other position receives a fresh card
removed from the deck, distinct from the other fresh cards and from
every card already drawn from this deck instance. -/
theorem claimC10 (now : Nat) (reshuffled : List Card) (s : ServerState)
    (gid pid : String) (gs : GameState) (alreadyDrawn : List Card)
    (hfind : findByGameId s.playerGameSessions gid = some (pid, gs))
    (hne : gs.isEnded = false)
    (ht : now - gs.timestamp < GAME_TIMEOUT_MS)
    (hr : gs.roundsPlayed < gs.maxRounds)
    (hnd : gs.deck.Nodup)
    (hshuf : reshuffled.Perm fullDeck)
    (hdisj : ∀ c ∈ alreadyDrawn, c ∉ refillDeck reshuffled gs.deck) :
    ((drawStep now reshuffled s gid).1.playerGameSessions.lookup pid
        = some (drawnSession now reshuffled gs)) ∧
    (drawStep now reshuffled s gid).2.succeeded = true ∧
    (drawStep now reshuffled s gid).2.handOf
        = (drawnSession now reshuffled gs).cards ∧
    (drawnSession now reshuffled gs).heldCards = [] ∧
    (drawnSession now reshuffled gs).roundsPlayed = gs.roundsPlayed + 1 ∧
    (drawnSession now reshuffled gs).cards.length = 3 ∧
    (gs.roundsPlayed = 0 →
       (drawnSession now reshuffled gs).cards.Nodup ∧
       ∀ c ∈ (drawnSession now reshuffled gs).cards,
         c ∈ refillDeck reshuffled gs.deck ∧ c ∉ alreadyDrawn ∧
         c ∉ (drawnSession now reshuffled gs).deck) ∧
    (0 < gs.roundsPlayed →
       (∀ i, i < 3 → gs.heldCards.contains i = true →
          (drawnSession now reshuffled gs).cards.getD i default
            = gs.cards.getD i default) ∧
       (∀ i, i < 3 → gs.heldCards.contains i = false →
          (drawnSession now reshuffled gs).cards.getD i default
              ∈ refillDeck reshuffled gs.deck ∧
          (drawnSession now reshuffled gs).cards.getD i default ∉ alreadyDrawn ∧
          (drawnSession now reshuffled gs).cards.getD i default
              ∉ (drawnSession now reshuffled gs).deck) ∧
       (∀ i j, i < 3 → j < 3 → i ≠ j → gs.heldCards.contains i = false →
          gs.heldCards.contains j = false →
          (drawnSession now reshuffled gs).cards.getD i default
            ≠ (drawnSession now reshuffled gs).cards.getD j default)) := by
  have hnd0 : (refillDeck reshuffled gs.deck).Nodup := by
    by_cases hlt : gs.deck.length < 3
    · simpa [refillDeck, hlt] using hshuf.nodup_iff.mpr fullDeck_nodup
    · simpa [refillDeck, hlt] using hnd
  have h30 : 3 ≤ (refillDeck reshuffled gs.deck).length := by
    by_cases hlt : gs.deck.length < 3
    · simp only [refillDeck, if_pos hlt]
      rw [hshuf.length_eq, fullDeck_length]
      omega
    · simp only [refillDeck, if_neg hlt]
      omega
  have hnotdrawn : ∀ c ∈ refillDeck reshuffled gs.deck, c ∉ alreadyDrawn :=
    fun c hc hmem => hdisj c hmem hc
  have hcards : (drawnSession now reshuffled gs).cards
      = (buildNewCards gs.roundsPlayed gs.heldCards gs.cards
          (refillDeck reshuffled gs.deck)).1 := by
    simp [drawnSession]
  have hdeck : (drawnSession now reshuffled gs).deck
      = (buildNewCards gs.roundsPlayed gs.heldCards gs.cards
          (refillDeck reshuffled gs.deck)).2 := by
    simp [drawnSession]
  obtain ⟨hlook, hsucc, hhand⟩ :=
    drawStep_success now reshuffled s gid pid gs hfind hne ht hr
  refine ⟨hlook, hsucc, hhand, by simp [drawnSession], by simp [drawnSession],
    ?_, ?_, ?_⟩
  · -- the new hand always has three cards
    rw [hcards]
    by_cases h0 : gs.roundsPlayed = 0
    · rw [h0]
      exact (buildNewCards_zero gs.heldCards gs.cards _ h30 hnd0).1
    · exact (buildNewCards_pos gs.roundsPlayed h0 gs.heldCards gs.cards
        _ h30 hnd0).1
  · -- round 0: three fresh distinct cards removed from the deck
    intro h0
    rw [hcards, hdeck, h0]
    obtain ⟨-, hnodup, hmem, -, hgone⟩ :=
      buildNewCards_zero gs.heldCards gs.cards (refillDeck reshuffled gs.deck)
        h30 hnd0
    exact ⟨hnodup, fun c hc =>
      ⟨hmem c hc, hnotdrawn c (hmem c hc), hgone c hc⟩⟩
  · -- rounds ≥ 1: held positions kept, the rest fresh and distinct
    intro hpos
    have h0 : gs.roundsPlayed ≠ 0 := by omega
    rw [hcards, hdeck]
    obtain ⟨-, hheld, hfresh, hdist⟩ :=
      buildNewCards_pos gs.roundsPlayed h0 gs.heldCards gs.cards
        (refillDeck reshuffled gs.deck) h30 hnd0
    refine ⟨hheld, ?_, hdist⟩
    intro i hi hc
    obtain ⟨hmem, hgone⟩ := hfresh i hi hc
    exact ⟨hmem, hnotdrawn _ hmem, hgone⟩

/-- Claim C10 witness: the round-1 session draws three fresh cards (no
position held), keeping nothing and clearing the held set. -/
theorem claimC10_witness :
    (findByGameId runningServer.playerGameSessions "g1"
        = some ("p1", runningGame) ∧
     runningGame.isEnded = false ∧
     1000 - runningGame.timestamp < GAME_TIMEOUT_MS ∧
     runningGame.roundsPlayed < runningGame.maxRounds ∧
     runningGame.deck.Nodup ∧
     fullDeck.Perm fullDeck ∧
     (∀ c ∈ runningGame.cards, c ∉ refillDeck fullDeck runningGame.deck)) ∧
    ((drawStep 1000 fullDeck runningServer "g1").1.playerGameSessions.lookup "p1"
        = some (drawnSession 1000 fullDeck runningGame)) ∧
    (drawStep 1000 fullDeck runningServer "g1").2.succeeded = true ∧
    (drawnSession 1000 fullDeck runningGame).heldCards = [] :=
  ⟨⟨by decide, by decide, by decide, by decide, by decide, List.Perm.refl _,
    by decide⟩,
   (claimC10 1000 fullDeck runningServer "g1" "p1" runningGame runningGame.cards
     (by decide) (by decide) (by decide) (by decide) (by decide)
     (List.Perm.refl _) (by decide)).1,
   (claimC10 1000 fullDeck runningServer "g1" "p1" runningGame runningGame.cards
     (by decide) (by decide) (by decide) (by decide) (by decide)
     (List.Perm.refl _) (by decide)).2.1,
   (claimC10 1000 fullDeck runningServer "g1" "p1" runningGame runningGame.cards
     (by decide) (by decide) (by decide) (by decide) (by decide)
     (List.Perm.refl _) (by decide)).2.2.2.1⟩

end LuckyTriple
